import Mathlib

/-!
Verification development for the cashfree-supabase-edge-functions repository.

The repository is a family of stateless Deno HTTP handlers.  Each handler is
embedded here as a pure function from the process environment, the incoming
request, and an oracle describing the results of the external calls the
handler issues (the upstream payment API, the relational datastore), to the
HTTP response it produces together with the ordered list of external calls it
issued along the way.  JSON values are modelled by an inductive type; the
text of runtime generated exception messages (JSON parse errors and the
like), which is engine defined rather than source defined, is supplied by the
oracle and never inspected by any theorem.
-/

set_option maxHeartbeats 1000000

namespace Cashfree

/-- JSON values, as produced by the JavaScript handlers.  Numbers are
modelled at integer precision; no claim inspects fractional amounts. -/
inductive Json where
  | null : Json
  | bool : Bool → Json
  | num : Int → Json
  | str : String → Json
  | arr : List Json → Json
  | obj : List (String × Json) → Json
deriving Repr

/-- JavaScript truthiness of a JSON value. -/
def Json.truthy : Json → Bool
  | .null => false
  | .bool b => b
  | .num n => n != 0
  | .str s => s != ""
  | .arr _ => true
  | .obj _ => true

/-- Property access `v.k`: `none` models `undefined`. -/
def Json.getField : Json → String → Option Json
  | .obj fields, k => fields.lookup k
  | _, _ => none

/-- Truthiness of a possibly undefined value (`undefined` is falsy). -/
def jsTruthy : Option Json → Bool
  | none => false
  | some v => v.truthy

/-- `a?.k` optional chaining through a possibly undefined value. -/
def jsGet (o : Option Json) (k : String) : Option Json :=
  o.bind (fun v => v.getField k)

/-- `x || d` on a possibly undefined JSON value with a JSON default. -/
def jsOrJson (o : Option Json) (d : Json) : Json :=
  match o with
  | some v => if v.truthy then v else d
  | none => d

/-- `x || d` on a possibly absent environment string with a string default.
`Deno.env.get` yields `undefined` for unset variables; the empty string is
falsy as well. -/
def jsOr (o : Option String) (d : String) : String :=
  match o with
  | some s => if s == "" then d else s
  | none => d

/-- Truthiness of a possibly absent environment string. -/
def envTruthy : Option String → Bool
  | none => false
  | some s => s != ""

/-- String conversion as performed by a template literal. -/
def jsToString : Json → String
  | .null => "null"
  | .bool b => if b then "true" else "false"
  | .num n => toString n
  | .str s => s
  | .arr _ => ""
  | .obj _ => "[object Object]"

/-- Build an object literal whose fields with value `undefined` are dropped,
as `JSON.stringify` does. -/
def objWithOpt (fields : List (String × Option Json)) : Json :=
  Json.obj (fields.filterMap (fun kv => kv.2.map (fun j => (kv.1, j))))

/-- `response.ok`: status in the 2xx range. -/
def respOk (status : Nat) : Bool :=
  200 ≤ status && status < 300

/-- The process environment variables the handlers read. -/
structure Env where
  cashfreeClientId : Option String := none
  cashfreeClientSecret : Option String := none
  cashfreeEnvironment : Option String := none
  cashfreeAppId : Option String := none
  cashfreeSecretKey : Option String := none
  supabaseUrl : Option String := none
  supabaseServiceRoleKey : Option String := none
deriving Repr

/-- An incoming HTTP request.  `pathParts` is `url.pathname.split('/')` with
empty segments removed, `query` the search parameters in order, and `body`
the result of `await req.json()` (`Except.error m` models a body whose JSON
parse throws with message `m`). -/
structure Request where
  method : String
  pathParts : List String := []
  query : List (String × String) := []
  body : Except String Json := Except.error "Unexpected end of JSON input"
deriving Repr

/-- The response a handler returns: HTTP status plus JSON body.  The CORS
preflight branch returns a non JSON body; it is modelled as a string. -/
structure HandlerResponse where
  status : Nat
  body : Json
deriving Repr

/-- An external call issued by a handler, in issue order. -/
inductive ExtCall where
  | fetch (url : String) (method : String)
      (headers : List (String × String)) (body : Option Json) : ExtCall
  | dbInsert (table : String) (payload : Json) : ExtCall
  | dbUpdate (table : String) (payload : Json)
      (eqColumn : String) (eqValue : Json) : ExtCall
deriving Repr

/-- Whether an external call is an upstream HTTP fetch. -/
def ExtCall.isFetch : ExtCall → Bool
  | .fetch _ _ _ _ => true
  | _ => false

/-- First value of a query parameter, empty when absent, as
`url.searchParams.get(k) || ''`. -/
def lookupQuery (q : List (String × String)) (k : String) : String :=
  match q.lookup k with
  | some v => v
  | none => ""

/-- The path segment immediately after the first occurrence of `route` in the
split path, empty when the route name is absent or the segment missing or
falsy.  This mirrors the shared idiom
`pathParts.findIndex(p => p === route)` followed by a truthiness guarded
read of `pathParts[functionIndex + 1]`. -/
def segAfter (route : String) (parts : List String) (offset : Nat) : String :=
  match parts.findIdx? (fun p => p == route) with
  | some i =>
      match parts.get? (i + offset) with
      | some s => s
      | none => ""
  | none => ""

/-- An environment string known to be present, for use in headers after the
truthiness check has passed. -/
def envStr (o : Option String) : String := o.getD ""

/-- `s || d` on strings, as applied by the catch blocks to exception
messages. -/
def jsOrStr (s d : String) : String := if s == "" then d else s

/-! ## functions/pg-fetch-order and functions/pg-order-fetch-payment

These two handlers call the upstream API through the `cashfree-pg` SDK,
first with the v5 calling convention and, should that throw, once more with
the v4 convention.  The oracle supplies the outcome of each attempt: either
the `data` field of the SDK response (possibly `undefined`) or the message of
the thrown error. -/

structure SdkOracle where
  firstAttempt : Except String (Option Json)
  secondAttempt : Except String (Option Json)
deriving Repr

/-- The `{success: true, data, message}` envelope; an `undefined` `data` is
dropped by `JSON.stringify`. -/
def successEnvelope (d : Option Json) (msg : String) : Json :=
  objWithOpt [("success", some (Json.bool true)), ("data", d),
    ("message", some (Json.str msg))]

/-- The `{success: false, error}` envelope. -/
def failEnvelope (msg : String) : Json :=
  Json.obj [("success", Json.bool false), ("error", Json.str msg)]

/-- The environment string functions/pg-fetch-order (and the second handler
of the pg-order-fetch-payment file) hands to the SDK:
`Deno.env.get('CASHFREE_ENVIRONMENT') || 'SANDBOX'`, then mapped to
`'PRODUCTION'` only when it is exactly that string. -/
def pgFetchOrder1SdkEnvironment (cfEnv : Option String) : String :=
  if jsOr cfEnv "SANDBOX" == "PRODUCTION" then "PRODUCTION" else "SANDBOX"

/-- Resolution of `orderId` in functions/pg-fetch-order: the path segment
after the route name, then the `order_id` query parameter. -/
def pgFetchOrder1OrderId (parts : List String) (query : List (String × String)) :
    String :=
  let fromPath := segAfter "pg-fetch-order" parts 1
  if fromPath == "" then lookupQuery query "order_id" else fromPath

def pgFetchOrder1MissingMsg : String :=
  "Missing order_id. Provide it as path parameter (/pg-fetch-order/order_123) or query parameter (?order_id=order_123)"

/-- functions/pg-fetch-order.  GET only; the SDK call is modelled as an
external call carrying the operation name and its arguments. -/
def pgFetchOrder1Run (env : Env) (req : Request) (sdk : SdkOracle) :
    HandlerResponse × List ExtCall :=
  if req.method == "OPTIONS" then
    ({ status := 200, body := Json.str "ok" }, [])
  else if !(envTruthy env.cashfreeClientId) || !(envTruthy env.cashfreeClientSecret) then
    ({ status := 500,
       body := failEnvelope "Missing Cashfree credentials in environment variables" }, [])
  else if req.method == "GET" then
    let orderId := pgFetchOrder1OrderId req.pathParts req.query
    if orderId == "" then
      ({ status := 400, body := failEnvelope pgFetchOrder1MissingMsg }, [])
    else
      let call1 := ExtCall.fetch "sdk:PGFetchOrder" "SDK" [] (some (Json.str orderId))
      let call2 := ExtCall.fetch "sdk:PGFetchOrder" "SDK" []
        (some (Json.arr [Json.str "2023-08-01", Json.str orderId]))
      match sdk.firstAttempt with
      | .ok d =>
          ({ status := 200, body := successEnvelope d "Order fetched successfully" },
           [call1])
      | .error _ =>
          match sdk.secondAttempt with
          | .ok d =>
              ({ status := 200, body := successEnvelope d "Order fetched successfully" },
               [call1, call2])
          | .error m =>
              ({ status := 500, body := failEnvelope m }, [call1, call2])
  else
    ({ status := 405,
       body := failEnvelope "Method not allowed. Only GET requests are supported." }, [])

/-- Resolution of the identifier pair in functions/pg-order-fetch-payment:
for each identifier the path segment after the route name (offsets 1 and 2),
then the query parameter of the same name. -/
def pgOrderFetchPaymentIds (parts : List String) (query : List (String × String)) :
    String × String :=
  let fromPathOrder := segAfter "pg-order-fetch-payment" parts 1
  let fromPathPayment := segAfter "pg-order-fetch-payment" parts 2
  let orderId := if fromPathOrder == "" then lookupQuery query "order_id" else fromPathOrder
  let cfPaymentId :=
    if fromPathPayment == "" then lookupQuery query "cf_payment_id" else fromPathPayment
  (orderId, cfPaymentId)

def pgOrderFetchPaymentMissingMsg : String :=
  "Missing required parameters. Provide order_id and cf_payment_id as path parameters (/pg-order-fetch-payment/order_123/payment_456) or query parameters (?order_id=order_123&cf_payment_id=payment_456)"

/-- functions/pg-order-fetch-payment (first handler in the file). -/
def pgOrderFetchPaymentRun (env : Env) (req : Request) (sdk : SdkOracle) :
    HandlerResponse × List ExtCall :=
  if req.method == "OPTIONS" then
    ({ status := 200, body := Json.str "ok" }, [])
  else if !(envTruthy env.cashfreeClientId) || !(envTruthy env.cashfreeClientSecret) then
    ({ status := 500,
       body := failEnvelope "Missing Cashfree credentials in environment variables" }, [])
  else if req.method == "GET" then
    let ids := pgOrderFetchPaymentIds req.pathParts req.query
    if ids.1 == "" || ids.2 == "" then
      ({ status := 400, body := failEnvelope pgOrderFetchPaymentMissingMsg }, [])
    else
      let call1 := ExtCall.fetch "sdk:PGOrderFetchPayment" "SDK" []
        (some (Json.arr [Json.str ids.1, Json.str ids.2]))
      let call2 := ExtCall.fetch "sdk:PGOrderFetchPayment" "SDK" []
        (some (Json.arr [Json.str "2023-08-01", Json.str ids.1, Json.str ids.2]))
      match sdk.firstAttempt with
      | .ok d =>
          ({ status := 200,
             body := successEnvelope d "Payment details fetched successfully" }, [call1])
      | .error _ =>
          match sdk.secondAttempt with
          | .ok d =>
              ({ status := 200,
                 body := successEnvelope d "Payment details fetched successfully" },
               [call1, call2])
          | .error m =>
              ({ status := 500, body := failEnvelope m }, [call1, call2])
  else
    ({ status := 405,
       body := failEnvelope "Method not allowed. Only GET requests are supported." }, [])

/-! ## functions/pg-get-order -/

/-- Base URL selection shared verbatim by functions/pg-get-order and the
pg-create-order handler of unnamed/part_001: production unless the
environment flag is present and lowercases to `sandbox`. -/
def cashfreeOrdersUrl (cfEnv : Option String) : String :=
  match cfEnv with
  | some e =>
      if e.toLower == "sandbox" then "https://sandbox.cashfree.com/pg/orders"
      else "https://api.cashfree.com/pg/orders"
  | none => "https://api.cashfree.com/pg/orders"

/-- Oracle for functions/pg-get-order: the upstream response (status,
status text, raw text and its parse), the engine defined messages of runtime
exceptions, and the result of the datastore update. -/
structure GetOrderOracle where
  upstreamStatus : Nat
  upstreamStatusText : String
  upstreamJson : Option Json
  parseErrMsg : String
  typeErrMsg : String
  updateError : Option String
deriving Repr

/-- The one outbound request functions/pg-get-order issues: a GET to the
orders collection endpoint.  It is built from the environment alone; the
caller supplied `order_id` appears nowhere in it. -/
def pgGetOrderFetchCall (env : Env) : ExtCall :=
  ExtCall.fetch (cashfreeOrdersUrl env.cashfreeEnvironment) "GET"
    [("Content-Type", "application/json"),
     ("x-client-id", envStr env.cashfreeAppId),
     ("x-client-secret", envStr env.cashfreeSecretKey),
     ("x-api-version", "2025-01-01")] none

/-- The `{error, details}` body of the catch branch of
functions/pg-get-order. -/
def getOrderErrBody (details : String) : Json :=
  Json.obj [("error", Json.str "Failed to get order status"),
    ("details", Json.str details)]

/-- functions/pg-get-order.  Reads `order_id` from the JSON body only; its
upstream URL is the orders collection endpoint, with no identifier appended;
after a successful upstream call it updates the `orders` row whose `id`
equals the supplied `order_id`. -/
def pgGetOrderRun (env : Env) (req : Request) (o : GetOrderOracle) :
    HandlerResponse × List ExtCall :=
  if req.method == "OPTIONS" then
    ({ status := 200, body := Json.null }, [])
  else
    match req.body with
    | .error m => ({ status := 500, body := getOrderErrBody m }, [])
    | .ok Json.null =>
        ({ status := 500, body := getOrderErrBody o.typeErrMsg }, [])
    | .ok b =>
        match b.getField "order_id" with
        | none =>
            ({ status := 400, body := Json.obj [("error", Json.str "Order ID is required")] }, [])
        | some oid =>
            if !(oid.truthy) then
              ({ status := 400,
                 body := Json.obj [("error", Json.str "Order ID is required")] }, [])
            else if !(envTruthy env.supabaseUrl) then
              -- createClient throws when its URL argument is falsy
              ({ status := 500, body := getOrderErrBody "supabaseUrl is required." }, [])
            else if !(envTruthy env.supabaseServiceRoleKey) then
              ({ status := 500, body := getOrderErrBody "supabaseKey is required." }, [])
            else if !(envTruthy env.cashfreeAppId) || !(envTruthy env.cashfreeSecretKey) then
              ({ status := 500,
                 body := getOrderErrBody "Cashfree credentials not configured" }, [])
            else
              let fetchCall := pgGetOrderFetchCall env
              if !(respOk o.upstreamStatus) then
                ({ status := 500,
                   body := getOrderErrBody ("Cashfree API error: " ++
                     toString o.upstreamStatus ++ " " ++ o.upstreamStatusText) },
                 [fetchCall])
              else
                match o.upstreamJson with
                | none =>
                    ({ status := 500, body := getOrderErrBody o.parseErrMsg }, [fetchCall])
                | some cj =>
                    match cj.getField "order_status" with
                    | some (Json.str st) =>
                        let updCall := ExtCall.dbUpdate "orders"
                          (Json.obj [("status", Json.str st.toLower)]) "id" oid
                        match o.updateError with
                        | some m =>
                            ({ status := 500, body := getOrderErrBody m },
                             [fetchCall, updCall])
                        | none =>
                            ({ status := 200,
                               body := objWithOpt
                                 [("success", some (Json.bool true)),
                                  ("order_id", cj.getField "order_id"),
                                  ("status", some (Json.str st)),
                                  ("amount", cj.getField "order_amount"),
                                  ("currency", cj.getField "order_currency")] },
                             [fetchCall, updCall])
                    | _ =>
                        ({ status := 500, body := getOrderErrBody o.typeErrMsg },
                         [fetchCall])

/-! ## functions-2/pg-fetch-order and functions-2/pg-order-fetch-payments

Both handlers read `orderId` from the JSON body only, perform no method
check beyond the OPTIONS branch, and surface every failure (including a
missing `orderId`) through their catch block as status 500. -/

/-- Oracle for the plain `fetch` based handlers: the upstream status, the
result of `await response.json()` (`none` when that throws), and the engine
defined messages of the runtime exceptions a request can raise. -/
structure Fetch2Oracle where
  upstreamStatus : Nat
  upstreamJson : Option Json
  parseErrMsg : String
  typeErrMsg : String
deriving Repr

/-- The upstream URL of functions-2/pg-fetch-order:
`CASHFREE_ENVIRONMENT || "PRODUCTION"` compared against `"PRODUCTION"`
selects the base, and the order identifier is interpolated into the path. -/
def pgFetchOrder2ApiUrl (cfEnv : Option String) (oid : Json) : String :=
  (if jsOr cfEnv "PRODUCTION" == "PRODUCTION" then "https://api.cashfree.com/pg/orders/"
   else "https://sandbox.cashfree.com/pg/orders/") ++ jsToString oid

/-- `===` against the string literal `"PAID"`. -/
def isStatusPaid : Option Json → Bool
  | some (Json.str s) => s == "PAID"
  | _ => false

/-- `new Error(v).message` for the thrown value `orderData.message || dflt`. -/
def upstreamMessageOr (od : Json) (dflt : String) : String :=
  jsToString (jsOrJson (od.getField "message") (Json.str dflt))

/-- The catch block of functions-2/pg-fetch-order:
`{success: false, error: error?.message || "Failed to verify payment status"}`
with status 500. -/
def pgFetchOrder2Catch (m : String) : HandlerResponse :=
  { status := 500, body := failEnvelope (jsOrStr m "Failed to verify payment status") }

/-- functions-2/pg-fetch-order (the order status handler). -/
def pgFetchOrder2Run (env : Env) (req : Request) (o : Fetch2Oracle) :
    HandlerResponse × List ExtCall :=
  if req.method == "OPTIONS" then
    ({ status := 200, body := Json.str "ok" }, [])
  else if !(envTruthy env.cashfreeClientId) || !(envTruthy env.cashfreeClientSecret) then
    (pgFetchOrder2Catch "Missing Cashfree credentials in environment variables", [])
  else
    match req.body with
    | .error m => (pgFetchOrder2Catch m, [])
    | .ok Json.null => (pgFetchOrder2Catch o.typeErrMsg, [])
    | .ok b =>
        match b.getField "orderId" with
        | none => (pgFetchOrder2Catch "Order ID is required", [])
        | some oid =>
            if !(oid.truthy) then
              (pgFetchOrder2Catch "Order ID is required", [])
            else
              let call := ExtCall.fetch (pgFetchOrder2ApiUrl env.cashfreeEnvironment oid) "GET"
                [("Content-Type", "application/json"), ("x-api-version", "2023-08-01"),
                 ("x-client-id", envStr env.cashfreeClientId),
                 ("x-client-secret", envStr env.cashfreeClientSecret)] none
              match o.upstreamJson with
              | none => (pgFetchOrder2Catch o.parseErrMsg, [call])
              | some od =>
                  if !(respOk o.upstreamStatus) then
                    (pgFetchOrder2Catch (upstreamMessageOr od "Failed to fetch order details"),
                     [call])
                  else
                    ({ status := 200,
                       body := objWithOpt
                         [("success", some (Json.bool true)),
                          ("isPaid", some (Json.bool (isStatusPaid (od.getField "order_status")))),
                          ("paymentStatus", od.getField "order_status"),
                          ("orderDetails", some od)] },
                     [call])

/-- The catch block of functions-2/pg-order-fetch-payments. -/
def pgOrderFetchPayments2Catch (m : String) : HandlerResponse :=
  { status := 500, body := failEnvelope (jsOrStr m "Failed to fetch payment details") }

/-- functions-2/pg-order-fetch-payments (first handler in the file). -/
def pgOrderFetchPayments2Run (env : Env) (req : Request) (o : Fetch2Oracle) :
    HandlerResponse × List ExtCall :=
  if req.method == "OPTIONS" then
    ({ status := 200, body := Json.str "ok" }, [])
  else if !(envTruthy env.cashfreeClientId) || !(envTruthy env.cashfreeClientSecret) then
    (pgOrderFetchPayments2Catch "Missing Cashfree credentials in environment variables", [])
  else
    match req.body with
    | .error m => (pgOrderFetchPayments2Catch m, [])
    | .ok Json.null => (pgOrderFetchPayments2Catch o.typeErrMsg, [])
    | .ok b =>
        match b.getField "orderId" with
        | none => (pgOrderFetchPayments2Catch "Order ID is required", [])
        | some oid =>
            if !(oid.truthy) then
              (pgOrderFetchPayments2Catch "Order ID is required", [])
            else
              let apiUrl := pgFetchOrder2ApiUrl env.cashfreeEnvironment oid ++ "/payments"
              let call := ExtCall.fetch apiUrl "GET"
                [("Content-Type", "application/json"), ("x-api-version", "2023-08-01"),
                 ("x-client-id", envStr env.cashfreeClientId),
                 ("x-client-secret", envStr env.cashfreeClientSecret)] none
              match o.upstreamJson with
              | none => (pgOrderFetchPayments2Catch o.parseErrMsg, [call])
              | some pd =>
                  if !(respOk o.upstreamStatus) then
                    (pgOrderFetchPayments2Catch
                       (upstreamMessageOr pd "Failed to fetch payment details"), [call])
                  else
                    ({ status := 200,
                       body := Json.obj [("success", Json.bool true), ("payments", pd)] },
                     [call])

/-! ## functions-2/pg-create-order -/

/-- `x?.[0]` on a possibly undefined value. -/
def jsIndex0 (o : Option Json) : Option Json :=
  match o with
  | some (Json.arr xs) => xs.get? 0
  | some (Json.obj fs) => fs.lookup "0"
  | _ => none

/-- `parseFloat(x)`, at the integer precision of the JSON model.  A value
that parses to NaN is collapsed to `null`, which is also how
`JSON.stringify` serializes NaN. -/
def jsParseFloat : Json → Json
  | .num n => .num n
  | .str s =>
      match s.toInt? with
      | some n => .num n
      | none => .null
  | _ => .null

/-- Oracle for functions-2/pg-create-order: the two generated identifiers,
the upstream response, the wall clock timestamp of the catch branch, and the
engine defined message of a destructuring TypeError. -/
structure Create2Oracle where
  genOrderId : String
  genCustomerId : String
  upstreamStatus : Nat
  upstreamStatusText : String
  upstreamText : String
  upstreamJson : Option Json
  timestamp : String
  typeErrMsg : String
deriving Repr

/-- The catch block of functions-2/pg-create-order, given the name and
message of the caught error. -/
def pgCreateOrder2Catch (nm msg ts : String) : HandlerResponse :=
  { status := 500,
    body := Json.obj [("success", Json.bool false),
      ("error", Json.str (jsOrStr msg "Unknown error occurred")),
      ("errorType", Json.str (jsOrStr nm "UnknownError")),
      ("timestamp", Json.str ts), ("debug", Json.bool true)] }

/-- The `message || error_description || errors[0].message || HTTP fallback`
chain of functions-2/pg-create-order. -/
def pgCreateOrder2ErrorMessage (rd : Json) (status : Nat) (statusText : String) :
    String :=
  jsToString (jsOrJson (rd.getField "message")
    (jsOrJson (rd.getField "error_description")
      (jsOrJson (jsGet (jsIndex0 (rd.getField "errors")) "message")
        (Json.str ("HTTP " ++ toString status ++ ": " ++ statusText)))))

/-- functions-2/pg-create-order.  Validates the body, generates an order and
customer identifier, posts the payload to the orders endpoint, and reports
the upstream identifiers in an ad hoc success shape. -/
def pgCreateOrder2Run (env : Env) (req : Request) (o : Create2Oracle) :
    HandlerResponse × List ExtCall :=
  if req.method == "OPTIONS" then
    ({ status := 200, body := Json.str "ok" }, [])
  else if !(envTruthy env.cashfreeClientId) || !(envTruthy env.cashfreeClientSecret) then
    ({ status := 500,
       body := Json.obj [("success", Json.bool false),
         ("error", Json.str "Missing Cashfree credentials in environment variables"),
         ("details", Json.obj
           [("hasClientId", Json.bool (envTruthy env.cashfreeClientId)),
            ("hasClientSecret", Json.bool (envTruthy env.cashfreeClientSecret))])] }, [])
  else
    match req.body with
    | .error m =>
        ({ status := 400,
           body := Json.obj [("success", Json.bool false),
             ("error", Json.str "Invalid JSON in request body"),
             ("details", Json.str m)] }, [])
    | .ok Json.null => (pgCreateOrder2Catch "TypeError" o.typeErrMsg o.timestamp, [])
    | .ok b =>
        let orderAmount := b.getField "orderAmount"
        let customerDetails := b.getField "customerDetails"
        if !(jsTruthy orderAmount) || !(jsTruthy customerDetails) then
          ({ status := 400,
             body := Json.obj [("success", Json.bool false),
               ("error", Json.str "Order amount and customer details are required"),
               ("details", Json.obj
                 [("hasOrderAmount", Json.bool (jsTruthy orderAmount)),
                  ("hasCustomerDetails", Json.bool (jsTruthy customerDetails))])] }, [])
        else if !(jsTruthy (jsGet customerDetails "customerEmail")) ||
            !(jsTruthy (jsGet customerDetails "customerPhone")) ||
            !(jsTruthy (jsGet customerDetails "customerName")) then
          ({ status := 400,
             body := Json.obj [("success", Json.bool false),
               ("error", Json.str "Customer email, phone, and name are required"),
               ("details", objWithOpt
                 [("hasEmail", some (Json.bool (jsTruthy (jsGet customerDetails "customerEmail")))),
                  ("hasPhone", some (Json.bool (jsTruthy (jsGet customerDetails "customerPhone")))),
                  ("hasName", some (Json.bool (jsTruthy (jsGet customerDetails "customerName")))),
                  ("receivedData", customerDetails)])] }, [])
        else
          let paymentPayload := Json.obj
            [("order_id", Json.str o.genOrderId),
             ("order_amount", jsParseFloat (orderAmount.getD Json.null)),
             ("order_currency", Json.str "INR"),
             ("customer_details", objWithOpt
               [("customer_id", some (Json.str o.genCustomerId)),
                ("customer_email", jsGet customerDetails "customerEmail"),
                ("customer_phone", jsGet customerDetails "customerPhone"),
                ("customer_name", jsGet customerDetails "customerName")])]
          let apiUrl :=
            if jsOr env.cashfreeEnvironment "PRODUCTION" == "PRODUCTION" then
              "https://api.cashfree.com/pg/orders"
            else "https://sandbox.cashfree.com/pg/orders"
          let call := ExtCall.fetch apiUrl "POST"
            [("Content-Type", "application/json"), ("x-api-version", "2023-08-01"),
             ("x-client-id", envStr env.cashfreeClientId),
             ("x-client-secret", envStr env.cashfreeClientSecret)] (some paymentPayload)
          match o.upstreamJson with
          | none =>
              (pgCreateOrder2Catch "Error"
                 ("Invalid JSON response from Cashfree: " ++ o.upstreamText) o.timestamp,
               [call])
          | some rd =>
              if !(respOk o.upstreamStatus) then
                (pgCreateOrder2Catch "Error"
                   ("Cashfree API Error: " ++
                     pgCreateOrder2ErrorMessage rd o.upstreamStatus o.upstreamStatusText)
                   o.timestamp, [call])
              else
                ({ status := 200,
                   body := objWithOpt
                     [("success", some (Json.bool true)),
                      ("orderId", rd.getField "order_id"),
                      ("paymentSessionId", rd.getField "payment_session_id"),
                      ("orderAmount", rd.getField "order_amount"),
                      ("orderCurrency", rd.getField "order_currency")] }, [call])

/-! ## unnamed/part_001: the pg-create-order handler backed by the datastore -/

/-- Oracle for the datastore backed pg-create-order: the result of the
`orders` insert (the id of the created row, or the datastore error), the
result of the `order_items` insert, the upstream response, and the result of
the final `orders` update.  The two latter errors are only logged by the
handler, so the model never reads them; they are retained so that this
noninterference is a statable theorem. -/
structure CreateDbOracle where
  orderInsert : Except String Json
  itemsInsertError : Option String
  upstreamStatus : Nat
  upstreamStatusText : String
  upstreamText : String
  upstreamJson : Option Json
  updateError : Option String
deriving Repr

/-- unnamed/part_001, pg-create-order.  Inserts a pending `orders` row,
optionally inserts `order_items`, posts the order to the upstream gateway,
and finally updates the row with the upstream identifiers. -/
def pgCreateOrderDbRun (env : Env) (req : Request) (o : CreateDbOracle) :
    HandlerResponse × List ExtCall :=
  if req.method == "OPTIONS" then
    ({ status := 200, body := Json.null }, [])
  else
    let cfUrl := cashfreeOrdersUrl env.cashfreeEnvironment
    if !(envTruthy env.supabaseUrl) || !(envTruthy env.supabaseServiceRoleKey) then
      ({ status := 500, body := failEnvelope "Supabase configuration is missing" }, [])
    else if !(envTruthy env.cashfreeAppId) || !(envTruthy env.cashfreeSecretKey) then
      ({ status := 500,
         body := failEnvelope "Missing Cashfree credentials in environment variables" }, [])
    else
      match req.body with
      | .error _ => ({ status := 500, body := failEnvelope "Unexpected server error" }, [])
      | .ok b =>
          let amountOk :=
            match b.getField "orderAmount" with
            | some (Json.num n) => 0 < n
            | _ => false
          if !(b.truthy) || !amountOk then
            ({ status := 400, body := failEnvelope "Invalid amount" }, [])
          else
            let currency := jsOrJson (b.getField "orderCurrency") (Json.str "INR")
            let returnUrl := jsOrJson (b.getField "returnUrl") (Json.str "")
            let insertCall := ExtCall.dbInsert "orders"
              (Json.obj [("total_amount", (b.getField "orderAmount").getD Json.null),
                ("status", Json.str "pending"), ("return_url", returnUrl)])
            match o.orderInsert with
            | .error _ =>
                ({ status := 500, body := failEnvelope "Failed to create order" },
                 [insertCall])
            | .ok oid =>
                -- Optional order_items insert; an element that is null makes
                -- the mapping callback throw and the catch branch answer.
                let itemsStep : Option (List ExtCall) :=
                  match b.getField "orderItems" with
                  | some (Json.arr xs) =>
                      if xs.length > 0 then
                        if xs.any (fun it => match it with | Json.null => true | _ => false) then
                          none
                        else
                          some [insertCall, ExtCall.dbInsert "order_items"
                            (Json.arr (xs.map (fun it => objWithOpt
                              [("order_id", some oid),
                               ("product_id", it.getField "product_id"),
                               ("quantity", it.getField "quantity"),
                               ("price", it.getField "price")])))]
                      else some [insertCall]
                  | _ => some [insertCall]
                match itemsStep with
                | none =>
                    ({ status := 500, body := failEnvelope "Unexpected server error" },
                     [insertCall])
                | some trace2 =>
                    let cfPayload := Json.obj
                      [("order_id", oid),
                       ("order_amount", (b.getField "orderAmount").getD Json.null),
                       ("order_currency", currency),
                       ("customer_details", Json.obj
                         [("customer_id",
                             jsOrJson (jsGet (b.getField "customerDetails") "customerId") oid),
                          ("customer_phone",
                             jsOrJson (jsGet (b.getField "customerDetails") "customerPhone")
                               (Json.str "9999999999")),
                          ("customer_email",
                             jsOrJson (jsGet (b.getField "customerDetails") "customerEmail")
                               (Json.str "test@example.com")),
                          ("customer_name",
                             jsOrJson (jsGet (b.getField "customerDetails") "customerName")
                               (Json.str "Test Customer"))]),
                       ("order_meta", objWithOpt
                         [("return_url",
                             if returnUrl.truthy then
                               some (Json.str (jsToString returnUrl ++ "?order_id=" ++
                                 jsToString oid))
                             else none)]),
                       ("order_note", Json.str "Order from e-commerce checkout")]
                    let fetchCall := ExtCall.fetch cfUrl "POST"
                      [("Content-Type", "application/json"),
                       ("x-client-id", envStr env.cashfreeAppId),
                       ("x-client-secret", envStr env.cashfreeSecretKey),
                       ("x-api-version", "2025-01-01")] (some cfPayload)
                    let trace3 := trace2 ++ [fetchCall]
                    let cfData : Json :=
                      match o.upstreamJson with
                      | some j => j
                      | none => Json.obj [("error", Json.str "Invalid JSON response"),
                          ("raw", Json.str o.upstreamText)]
                    if !(respOk o.upstreamStatus) then
                      let failCall := ExtCall.dbUpdate "orders"
                        (Json.obj [("status", Json.str "failed")]) "id" oid
                      ({ status := 500,
                         body := Json.obj
                           [("success", Json.bool false),
                            ("error", jsOrJson (cfData.getField "message")
                              (jsOrJson (cfData.getField "error_description")
                                (Json.str ("Cashfree API Error: " ++
                                  toString o.upstreamStatus ++ " " ++ o.upstreamStatusText)))),
                            ("details", Json.obj
                              [("status", Json.num (o.upstreamStatus : Int)),
                               ("statusText", Json.str o.upstreamStatusText),
                               ("response", cfData)])] },
                       trace3 ++ [failCall])
                    else
                      let cashfreeOrderId := cfData.getField "order_id"
                      let paymentSessionId := cfData.getField "payment_session_id"
                      let updCall := ExtCall.dbUpdate "orders"
                        (Json.obj [("status", Json.str "created"),
                          ("cashfree_order_id", jsOrJson cashfreeOrderId Json.null),
                          ("payment_session_id", jsOrJson paymentSessionId Json.null)])
                        "id" oid
                      ({ status := 200,
                         body := objWithOpt
                           [("success", some (Json.bool true)),
                            ("order_id", some oid),
                            ("cashfree_order_id", cashfreeOrderId),
                            ("payment_session_id", paymentSessionId)] },
                       trace3 ++ [updCall])

/-! ## Concrete fixtures used by witnesses and counterexamples -/

/-- An environment with the Cashfree client credential pair set. -/
def envCf : Env :=
  { cashfreeClientId := some "cid", cashfreeClientSecret := some "csecret" }

/-- `envCf` with an unrecognized environment flag. -/
def envCfStaging : Env := { envCf with cashfreeEnvironment := some "STAGING" }

/-- An environment with the app credential pair and datastore configuration
set, as functions/pg-get-order and unnamed/part_001 read them. -/
def envApp : Env :=
  { cashfreeAppId := some "appid", cashfreeSecretKey := some "skey",
    supabaseUrl := some "https://proj.supabase.co",
    supabaseServiceRoleKey := some "srkey" }

/-- A representative upstream order payload with status PAID. -/
def paidOrderJson : Json :=
  Json.obj [("order_id", Json.str "ord_1"), ("order_status", Json.str "PAID"),
    ("order_amount", Json.num 100), ("order_currency", Json.str "INR"),
    ("payment_session_id", Json.str "sess_1")]

/-- A POST request whose body carries `orderId: "ord_1"`. -/
def reqOrderId1 : Request :=
  { method := "POST", body := Except.ok (Json.obj [("orderId", Json.str "ord_1")]) }

/-- A successful upstream oracle for the plain fetch handlers. -/
def fetch2OracleOk : Fetch2Oracle :=
  { upstreamStatus := 200, upstreamJson := some paidOrderJson,
    parseErrMsg := "", typeErrMsg := "" }

/-- An SDK oracle whose first calling convention succeeds. -/
def sdkOracleOk : SdkOracle :=
  { firstAttempt := Except.ok (some paidOrderJson),
    secondAttempt := Except.ok (some paidOrderJson) }

/-- A successful oracle for functions/pg-get-order. -/
def getOrderOracleOk : GetOrderOracle :=
  { upstreamStatus := 200, upstreamStatusText := "OK",
    upstreamJson := some paidOrderJson, parseErrMsg := "", typeErrMsg := "",
    updateError := none }

/-- A successful oracle for functions-2/pg-create-order. -/
def create2OracleOk : Create2Oracle :=
  { genOrderId := "order_gen_1", genCustomerId := "customer_gen_1",
    upstreamStatus := 200, upstreamStatusText := "OK", upstreamText := "",
    upstreamJson := some paidOrderJson,
    timestamp := "2026-01-01T00:00:00.000Z", typeErrMsg := "" }

/-- A successful oracle for the datastore backed pg-create-order. -/
def createDbOracleOk : CreateDbOracle :=
  { orderInsert := Except.ok (Json.str "row_7"), itemsInsertError := none,
    upstreamStatus := 200, upstreamStatusText := "OK", upstreamText := "",
    upstreamJson := some paidOrderJson, updateError := none }

/-- An environment with only the datastore configuration set. -/
def envDbOnly : Env :=
  { supabaseUrl := some "https://proj.supabase.co",
    supabaseServiceRoleKey := some "srkey" }

/-- A POST request whose body carries `order_id: "row_7"`. -/
def reqOrderRow7 : Request :=
  { method := "POST", body := Except.ok (Json.obj [("order_id", Json.str "row_7")]) }

/-- A GET request naming an order in the path after the route segment. -/
def reqGetPath1 : Request :=
  { method := "GET", pathParts := ["functions", "v1", "pg-fetch-order", "ord_1"] }

/-- A GET request naming both identifiers in the path after the route
segment of the payment lookup handler. -/
def reqGetPayment1 : Request :=
  { method := "GET",
    pathParts := ["functions", "v1", "pg-order-fetch-payment", "ord_1", "pay_1"] }

/-- A valid order creation body for functions-2/pg-create-order. -/
def reqCreateValid : Request :=
  { method := "POST",
    body := Except.ok (Json.obj
      [("orderAmount", Json.num 100),
       ("customerDetails", Json.obj
         [("customerEmail", Json.str "jo@example.com"),
          ("customerPhone", Json.str "9999999999"),
          ("customerName", Json.str "Jo")])]) }

/-- A valid order creation body for the datastore backed handler. -/
def reqCreateDbValid : Request :=
  { method := "POST", body := Except.ok (Json.obj [("orderAmount", Json.num 100)]) }

/-- A POST request whose JSON body is an object without any identifier. -/
def reqNoOrderId : Request :=
  { method := "POST", body := Except.ok (Json.obj []) }

/-- An upstream 404 whose JSON body carries a message, for
functions/pg-get-order. -/
def getOrderOracle404 : GetOrderOracle :=
  { upstreamStatus := 404, upstreamStatusText := "Not Found",
    upstreamJson := some (Json.obj [("message", Json.str "Order not found")]),
    parseErrMsg := "", typeErrMsg := "", updateError := none }

/-- An upstream 404 whose JSON body carries a message, for the plain fetch
handlers. -/
def fetch2Oracle404 : Fetch2Oracle :=
  { upstreamStatus := 404,
    upstreamJson := some (Json.obj [("message", Json.str "Order not found")]),
    parseErrMsg := "", typeErrMsg := "" }

/-- A DELETE request with no body. -/
def reqDelete : Request := { method := "DELETE" }

/-- A GET request to the fetch order route whose identifier is supplied only
in the JSON body. -/
def reqBodyOnlyOrder : Request :=
  { method := "GET", pathParts := ["functions", "v1", "pg-fetch-order"],
    body := Except.ok (Json.obj [("order_id", Json.str "ord_9")]) }

/-- An upstream 2xx whose body fails to parse as JSON. -/
def fetch2OracleBadJson : Fetch2Oracle :=
  { upstreamStatus := 200, upstreamJson := none,
    parseErrMsg := "Unexpected token u in JSON", typeErrMsg := "" }

/-- An upstream 404 whose JSON body carries a message, for
functions-2/pg-create-order. -/
def create2Oracle404 : Create2Oracle :=
  { genOrderId := "order_gen_1", genCustomerId := "customer_gen_1",
    upstreamStatus := 404, upstreamStatusText := "Not Found", upstreamText := "",
    upstreamJson := some (Json.obj [("message", Json.str "Order not found")]),
    timestamp := "2026-01-01T00:00:00.000Z", typeErrMsg := "" }

end Cashfree

namespace Cashfree

/-! ## Claims -/

/-- Unfolding lemma for field access on an object literal, used to keep
`Json.getField` folded on opaque values during proofs. -/
theorem Json.getField_obj (fs : List (String × Json)) (k : String) :
    (Json.obj fs).getField k = fs.lookup k := rfl

/-- Truthiness of a string literal value. -/
theorem Json.truthy_str (s : String) : (Json.str s).truthy = (s != "") := rfl

/-- A key that differs from every key of an optional field list is absent
from the built object, whatever the optional values are. -/
theorem objWithOpt_getField_none (fields : List (String × Option Json)) (k : String)
    (h : ∀ kv ∈ fields, kv.1 ≠ k) :
    (objWithOpt fields).getField k = none := by
  induction fields with
  | nil => rfl
  | cons hd tl ih =>
      have hhd : hd.1 ≠ k := h hd (by simp)
      have htl : ∀ kv ∈ tl, kv.1 ≠ k := fun kv hm => h kv (by simp [hm])
      have hbeq : (k == hd.1) = false := by
        rw [beq_eq_false_iff_ne]
        exact fun he => hhd he.symm
      have hrec := ih htl
      simp only [objWithOpt, Json.getField_obj] at hrec ⊢
      cases hv : hd.2 with
      | none => simpa [List.filterMap_cons, hv] using hrec
      | some j => simp [List.filterMap_cons, hv, List.lookup, hbeq, hrec]

/-- C1, counterexample: the claim asserts that every handler answers a
missing required identifier with `success: false` and status 400.  In
functions-2/pg-fetch-order a request whose body (the only attempted channel)
carries no `orderId` is answered through the catch block with status 500,
not 400. -/
theorem C1_cex :
    (pgFetchOrder2Run envCf reqNoOrderId fetch2OracleOk).1.status = 500 ∧
    (pgFetchOrder2Run envCf reqNoOrderId fetch2OracleOk).1.body.getField "success" =
      some (Json.bool false) ∧
    ¬ (pgFetchOrder2Run envCf reqNoOrderId fetch2OracleOk).1.status = 400 := by
  refine ⟨rfl, rfl, ?_⟩
  intro h
  simp [pgFetchOrder2Run, pgFetchOrder2Catch, envCf, reqNoOrderId, envTruthy,
    Json.getField] at h

/-- C1, amended: a missing required identifier yields `success: false` with
status 400 in the two GET handlers under functions/; functions/pg-get-order
answers status 400 with the body `{error: "Order ID is required"}`, which
carries no `success` field; and the two functions-2 body based fetch
handlers surface the missing `orderId` through their catch block as
`success: false` with status 500. -/
theorem C1_spec :
    (∀ env req sdk,
      envTruthy env.cashfreeClientId = true →
      envTruthy env.cashfreeClientSecret = true →
      req.method = "GET" →
      pgFetchOrder1OrderId req.pathParts req.query = "" →
      (pgFetchOrder1Run env req sdk).1.status = 400 ∧
      (pgFetchOrder1Run env req sdk).1.body.getField "success" =
        some (Json.bool false)) ∧
    (∀ env req sdk,
      envTruthy env.cashfreeClientId = true →
      envTruthy env.cashfreeClientSecret = true →
      req.method = "GET" →
      ((pgOrderFetchPaymentIds req.pathParts req.query).1 = "" ∨
        (pgOrderFetchPaymentIds req.pathParts req.query).2 = "") →
      (pgOrderFetchPaymentRun env req sdk).1.status = 400 ∧
      (pgOrderFetchPaymentRun env req sdk).1.body.getField "success" =
        some (Json.bool false)) ∧
    (∀ env req o fs,
      (req.method == "OPTIONS") = false →
      req.body = Except.ok (Json.obj fs) →
      jsTruthy ((Json.obj fs).getField "order_id") = false →
      (pgGetOrderRun env req o).1.status = 400 ∧
      (pgGetOrderRun env req o).1.body =
        Json.obj [("error", Json.str "Order ID is required")] ∧
      (pgGetOrderRun env req o).1.body.getField "success" = none) ∧
    (∀ env req o fs,
      envTruthy env.cashfreeClientId = true →
      envTruthy env.cashfreeClientSecret = true →
      (req.method == "OPTIONS") = false →
      req.body = Except.ok (Json.obj fs) →
      jsTruthy ((Json.obj fs).getField "orderId") = false →
      (pgFetchOrder2Run env req o).1.status = 500 ∧
      (pgFetchOrder2Run env req o).1.body.getField "success" =
        some (Json.bool false)) ∧
    (∀ env req o fs,
      envTruthy env.cashfreeClientId = true →
      envTruthy env.cashfreeClientSecret = true →
      (req.method == "OPTIONS") = false →
      req.body = Except.ok (Json.obj fs) →
      jsTruthy ((Json.obj fs).getField "orderId") = false →
      (pgOrderFetchPayments2Run env req o).1.status = 500 ∧
      (pgOrderFetchPayments2Run env req o).1.body.getField "success" =
        some (Json.bool false)) := by
  refine ⟨?_, ?_, ?_, ?_, ?_⟩
  · intro env req sdk hcid hcs hget hres
    simp [pgFetchOrder1Run, hcid, hcs, hget, hres, failEnvelope,
      Json.getField_obj, List.lookup]
  · intro env req sdk hcid hcs hget hres
    rcases hres with h | h <;>
      simp [pgOrderFetchPaymentRun, hcid, hcs, hget, h, failEnvelope,
        Json.getField_obj, List.lookup]
  · intro env req o fs hm hb ht
    cases hf : (Json.obj fs).getField "order_id" with
    | none =>
        simp [pgGetOrderRun, hm, hb, hf, Json.getField_obj, List.lookup]
    | some v =>
        rw [hf] at ht
        simp only [jsTruthy] at ht
        simp [pgGetOrderRun, hm, hb, hf, ht, Json.getField_obj, List.lookup]
  · intro env req o fs hcid hcs hm hb ht
    cases hf : (Json.obj fs).getField "orderId" with
    | none =>
        simp [pgFetchOrder2Run, pgFetchOrder2Catch, hcid, hcs, hm, hb, hf,
          failEnvelope, jsOrStr, Json.getField_obj, List.lookup]
    | some v =>
        rw [hf] at ht
        simp only [jsTruthy] at ht
        simp [pgFetchOrder2Run, pgFetchOrder2Catch, hcid, hcs, hm, hb, hf, ht,
          failEnvelope, jsOrStr, Json.getField_obj, List.lookup]
  · intro env req o fs hcid hcs hm hb ht
    cases hf : (Json.obj fs).getField "orderId" with
    | none =>
        simp [pgOrderFetchPayments2Run, pgOrderFetchPayments2Catch, hcid, hcs,
          hm, hb, hf, failEnvelope, jsOrStr, Json.getField_obj, List.lookup]
    | some v =>
        rw [hf] at ht
        simp only [jsTruthy] at ht
        simp [pgOrderFetchPayments2Run, pgOrderFetchPayments2Catch, hcid, hcs,
          hm, hb, hf, ht, failEnvelope, jsOrStr, Json.getField_obj, List.lookup]

/-- C1, witness: the amended statement evaluated on concrete requests whose
identifier is absent from every attempted channel. -/
theorem C1_witness :
    ((pgFetchOrder1Run envCf { method := "GET" } sdkOracleOk).1.status = 400 ∧
      (pgFetchOrder1Run envCf { method := "GET" } sdkOracleOk).1.body.getField
        "success" = some (Json.bool false)) ∧
    ((pgOrderFetchPaymentRun envCf { method := "GET" } sdkOracleOk).1.status = 400 ∧
      (pgOrderFetchPaymentRun envCf { method := "GET" } sdkOracleOk).1.body.getField
        "success" = some (Json.bool false)) ∧
    ((pgGetOrderRun envApp reqNoOrderId getOrderOracleOk).1.status = 400 ∧
      (pgGetOrderRun envApp reqNoOrderId getOrderOracleOk).1.body =
        Json.obj [("error", Json.str "Order ID is required")] ∧
      (pgGetOrderRun envApp reqNoOrderId getOrderOracleOk).1.body.getField
        "success" = none) ∧
    ((pgFetchOrder2Run envCf reqNoOrderId fetch2OracleOk).1.status = 500 ∧
      (pgFetchOrder2Run envCf reqNoOrderId fetch2OracleOk).1.body.getField
        "success" = some (Json.bool false)) ∧
    ((pgOrderFetchPayments2Run envCf reqNoOrderId fetch2OracleOk).1.status = 500 ∧
      (pgOrderFetchPayments2Run envCf reqNoOrderId fetch2OracleOk).1.body.getField
        "success" = some (Json.bool false)) :=
  ⟨C1_spec.1 envCf { method := "GET" } sdkOracleOk rfl rfl rfl rfl,
   C1_spec.2.1 envCf { method := "GET" } sdkOracleOk rfl rfl rfl (Or.inl rfl),
   C1_spec.2.2.1 envApp reqNoOrderId getOrderOracleOk [] rfl rfl rfl,
   C1_spec.2.2.2.1 envCf reqNoOrderId fetch2OracleOk [] rfl rfl rfl rfl rfl,
   C1_spec.2.2.2.2 envCf reqNoOrderId fetch2OracleOk [] rfl rfl rfl rfl rfl⟩

/-- C2, counterexample: the claim asserts that every handler wraps a
successful upstream payload in `{success: true, data, message}`.  A
successful run of functions/pg-get-order answers 200 with a body that has
neither a `message` nor a `data` field. -/
theorem C2_cex :
    (pgGetOrderRun envApp reqOrderRow7 getOrderOracleOk).1.status = 200 ∧
    (pgGetOrderRun envApp reqOrderRow7 getOrderOracleOk).1.body.getField "message" =
      none ∧
    (pgGetOrderRun envApp reqOrderRow7 getOrderOracleOk).1.body.getField "data" =
      none := ⟨rfl, rfl, rfl⟩

/-- C2, amended: on a successful upstream call every handler answers 200
with `success: true`, but only the two GET handlers under functions/ use the
`{success, data, message: "<operation> successfully"}` envelope; the other
handlers return handler specific success shapes without `data` or `message`
fields. -/
theorem C2_spec :
    (∀ env req sdk d,
      envTruthy env.cashfreeClientId = true →
      envTruthy env.cashfreeClientSecret = true →
      req.method = "GET" →
      pgFetchOrder1OrderId req.pathParts req.query ≠ "" →
      sdk.firstAttempt = Except.ok d →
      (pgFetchOrder1Run env req sdk).1.status = 200 ∧
      (pgFetchOrder1Run env req sdk).1.body.getField "success" =
        some (Json.bool true) ∧
      (pgFetchOrder1Run env req sdk).1.body.getField "message" =
        some (Json.str "Order fetched successfully") ∧
      (pgFetchOrder1Run env req sdk).1.body.getField "data" = d) ∧
    (∀ env req sdk d,
      envTruthy env.cashfreeClientId = true →
      envTruthy env.cashfreeClientSecret = true →
      req.method = "GET" →
      (pgOrderFetchPaymentIds req.pathParts req.query).1 ≠ "" →
      (pgOrderFetchPaymentIds req.pathParts req.query).2 ≠ "" →
      sdk.firstAttempt = Except.ok d →
      (pgOrderFetchPaymentRun env req sdk).1.status = 200 ∧
      (pgOrderFetchPaymentRun env req sdk).1.body.getField "success" =
        some (Json.bool true) ∧
      (pgOrderFetchPaymentRun env req sdk).1.body.getField "message" =
        some (Json.str "Payment details fetched successfully") ∧
      (pgOrderFetchPaymentRun env req sdk).1.body.getField "data" = d) ∧
    (∀ env req o fs oid cj st,
      (req.method == "OPTIONS") = false →
      req.body = Except.ok (Json.obj fs) →
      (Json.obj fs).getField "order_id" = some oid →
      oid.truthy = true →
      envTruthy env.supabaseUrl = true →
      envTruthy env.supabaseServiceRoleKey = true →
      envTruthy env.cashfreeAppId = true →
      envTruthy env.cashfreeSecretKey = true →
      respOk o.upstreamStatus = true →
      o.upstreamJson = some cj →
      cj.getField "order_status" = some (Json.str st) →
      o.updateError = none →
      (pgGetOrderRun env req o).1.status = 200 ∧
      (pgGetOrderRun env req o).1.body.getField "success" = some (Json.bool true) ∧
      (pgGetOrderRun env req o).1.body.getField "message" = none ∧
      (pgGetOrderRun env req o).1.body.getField "data" = none) ∧
    (∀ env req o fs oid od,
      envTruthy env.cashfreeClientId = true →
      envTruthy env.cashfreeClientSecret = true →
      (req.method == "OPTIONS") = false →
      req.body = Except.ok (Json.obj fs) →
      (Json.obj fs).getField "orderId" = some oid →
      oid.truthy = true →
      o.upstreamJson = some od →
      respOk o.upstreamStatus = true →
      (pgFetchOrder2Run env req o).1.status = 200 ∧
      (pgFetchOrder2Run env req o).1.body.getField "success" =
        some (Json.bool true) ∧
      (pgFetchOrder2Run env req o).1.body.getField "message" = none ∧
      (pgFetchOrder2Run env req o).1.body.getField "data" = none) ∧
    (∀ env req o fs oid pd,
      envTruthy env.cashfreeClientId = true →
      envTruthy env.cashfreeClientSecret = true →
      (req.method == "OPTIONS") = false →
      req.body = Except.ok (Json.obj fs) →
      (Json.obj fs).getField "orderId" = some oid →
      oid.truthy = true →
      o.upstreamJson = some pd →
      respOk o.upstreamStatus = true →
      (pgOrderFetchPayments2Run env req o).1.status = 200 ∧
      (pgOrderFetchPayments2Run env req o).1.body =
        Json.obj [("success", Json.bool true), ("payments", pd)] ∧
      (pgOrderFetchPayments2Run env req o).1.body.getField "message" = none) ∧
    (∀ env req o fs rd,
      envTruthy env.cashfreeClientId = true →
      envTruthy env.cashfreeClientSecret = true →
      (req.method == "OPTIONS") = false →
      req.body = Except.ok (Json.obj fs) →
      jsTruthy ((Json.obj fs).getField "orderAmount") = true →
      jsTruthy ((Json.obj fs).getField "customerDetails") = true →
      jsTruthy (jsGet ((Json.obj fs).getField "customerDetails") "customerEmail") = true →
      jsTruthy (jsGet ((Json.obj fs).getField "customerDetails") "customerPhone") = true →
      jsTruthy (jsGet ((Json.obj fs).getField "customerDetails") "customerName") = true →
      o.upstreamJson = some rd →
      respOk o.upstreamStatus = true →
      (pgCreateOrder2Run env req o).1.status = 200 ∧
      (pgCreateOrder2Run env req o).1.body.getField "success" =
        some (Json.bool true) ∧
      (pgCreateOrder2Run env req o).1.body.getField "message" = none ∧
      (pgCreateOrder2Run env req o).1.body.getField "data" = none) ∧
    (∀ env req o fs a oid,
      (req.method == "OPTIONS") = false →
      envTruthy env.supabaseUrl = true →
      envTruthy env.supabaseServiceRoleKey = true →
      envTruthy env.cashfreeAppId = true →
      envTruthy env.cashfreeSecretKey = true →
      req.body = Except.ok (Json.obj fs) →
      (Json.obj fs).getField "orderAmount" = some (Json.num a) →
      0 < a →
      (Json.obj fs).getField "orderItems" = none →
      o.orderInsert = Except.ok oid →
      respOk o.upstreamStatus = true →
      (pgCreateOrderDbRun env req o).1.status = 200 ∧
      (pgCreateOrderDbRun env req o).1.body.getField "success" =
        some (Json.bool true) ∧
      (pgCreateOrderDbRun env req o).1.body.getField "message" = none ∧
      (pgCreateOrderDbRun env req o).1.body.getField "data" = none) := by
  refine ⟨?_, ?_, ?_, ?_, ?_, ?_, ?_⟩
  · intro env req sdk d hcid hcs hget hres hsdk
    have hne : (pgFetchOrder1OrderId req.pathParts req.query == "") = false := by
      rw [beq_eq_false_iff_ne]
      exact hres
    cases d <;>
      simp [pgFetchOrder1Run, hcid, hcs, hget, hne, hsdk, successEnvelope,
        objWithOpt, Json.getField_obj, List.lookup, List.filterMap_cons]
  · intro env req sdk d hcid hcs hget hres1 hres2 hsdk
    have hne1 : ((pgOrderFetchPaymentIds req.pathParts req.query).1 == "") = false := by
      rw [beq_eq_false_iff_ne]
      exact hres1
    have hne2 : ((pgOrderFetchPaymentIds req.pathParts req.query).2 == "") = false := by
      rw [beq_eq_false_iff_ne]
      exact hres2
    cases d <;>
      simp [pgOrderFetchPaymentRun, hcid, hcs, hget, hne1, hne2, hsdk,
        successEnvelope, objWithOpt, Json.getField_obj, List.lookup,
        List.filterMap_cons]
  · intro env req o fs oid cj st hm hb hf ht hsu hsk hca hcs hok hj hst hupd
    refine ⟨?_, ?_, ?_, ?_⟩ <;>
      cases hx1 : cj.getField "order_id" <;>
      cases hx2 : cj.getField "order_amount" <;>
      cases hx3 : cj.getField "order_currency" <;>
      simp [pgGetOrderRun, hm, hb, hf, ht, hsu, hsk, hca, hcs, hok, hj, hst,
        hupd, hx1, hx2, hx3, objWithOpt, Json.getField_obj, List.lookup]
  · intro env req o fs oid od hcid hcs hm hb hf ht hj hok
    refine ⟨?_, ?_, ?_, ?_⟩ <;>
      cases hx : od.getField "order_status" <;>
      simp [pgFetchOrder2Run, hcid, hcs, hm, hb, hf, ht, hj, hok, hx,
        objWithOpt, isStatusPaid, Json.getField_obj, List.lookup]
  · intro env req o fs oid pd hcid hcs hm hb hf ht hj hok
    refine ⟨?_, ?_, ?_⟩ <;>
      simp [pgOrderFetchPayments2Run, hcid, hcs, hm, hb, hf, ht, hj, hok,
        Json.getField_obj, List.lookup]
  · intro env req o fs rd hcid hcs hm hb ha hcd he hp hn hj hok
    simp only [Json.getField_obj] at ha hcd he hp hn
    refine ⟨?_, ?_, ?_, ?_⟩ <;>
      cases hx1 : rd.getField "order_id" <;>
      cases hx2 : rd.getField "payment_session_id" <;>
      cases hx3 : rd.getField "order_amount" <;>
      cases hx4 : rd.getField "order_currency" <;>
      simp [pgCreateOrder2Run, hcid, hcs, hm, hb, ha, hcd, he, hp, hn, hj, hok,
        hx1, hx2, hx3, hx4, objWithOpt, Json.getField_obj, List.lookup]
  · intro env req o fs a oid hm hsu hsk hca hcs hb hamt hpos hitems hins hok
    have hd : (decide (0 < a)) = true := decide_eq_true hpos
    cases ho : o.upstreamJson with
    | none =>
        refine ⟨?_, ?_, ?_, ?_⟩ <;>
          simp [pgCreateOrderDbRun, hm, hsu, hsk, hca, hcs, hb, hamt, hd,
            hitems, hins, hok, ho, objWithOpt, Json.truthy, Json.getField_obj,
            List.lookup]
    | some rd =>
        refine ⟨?_, ?_, ?_, ?_⟩ <;>
          cases hx1 : rd.getField "order_id" <;>
          cases hx2 : rd.getField "payment_session_id" <;>
          simp [pgCreateOrderDbRun, hm, hsu, hsk, hca, hcs, hb, hamt, hd,
            hitems, hins, hok, ho, hx1, hx2, objWithOpt, Json.truthy,
            Json.getField_obj, List.lookup]

/-- C2, witness: the amended statement evaluated on concrete successful runs
of all seven handlers. -/
theorem C2_witness :
    ((pgFetchOrder1Run envCf reqGetPath1 sdkOracleOk).1.status = 200 ∧
      (pgFetchOrder1Run envCf reqGetPath1 sdkOracleOk).1.body.getField "message" =
        some (Json.str "Order fetched successfully")) ∧
    ((pgOrderFetchPaymentRun envCf reqGetPayment1 sdkOracleOk).1.status = 200 ∧
      (pgOrderFetchPaymentRun envCf reqGetPayment1 sdkOracleOk).1.body.getField
        "message" = some (Json.str "Payment details fetched successfully")) ∧
    ((pgGetOrderRun envApp reqOrderRow7 getOrderOracleOk).1.status = 200 ∧
      (pgGetOrderRun envApp reqOrderRow7 getOrderOracleOk).1.body.getField
        "message" = none) ∧
    ((pgFetchOrder2Run envCf reqOrderId1 fetch2OracleOk).1.status = 200 ∧
      (pgFetchOrder2Run envCf reqOrderId1 fetch2OracleOk).1.body.getField
        "message" = none) ∧
    ((pgOrderFetchPayments2Run envCf reqOrderId1 fetch2OracleOk).1.status = 200 ∧
      (pgOrderFetchPayments2Run envCf reqOrderId1 fetch2OracleOk).1.body.getField
        "message" = none) ∧
    ((pgCreateOrder2Run envCf reqCreateValid create2OracleOk).1.status = 200 ∧
      (pgCreateOrder2Run envCf reqCreateValid create2OracleOk).1.body.getField
        "message" = none) ∧
    ((pgCreateOrderDbRun envApp reqCreateDbValid createDbOracleOk).1.status = 200 ∧
      (pgCreateOrderDbRun envApp reqCreateDbValid createDbOracleOk).1.body.getField
        "message" = none) :=
  ⟨⟨(C2_spec.1 envCf reqGetPath1 sdkOracleOk (some paidOrderJson) rfl rfl rfl
      (by decide) rfl).1,
    (C2_spec.1 envCf reqGetPath1 sdkOracleOk (some paidOrderJson) rfl rfl rfl
      (by decide) rfl).2.2.1⟩,
   ⟨(C2_spec.2.1 envCf reqGetPayment1 sdkOracleOk (some paidOrderJson) rfl rfl rfl
      (by decide) (by decide) rfl).1,
    (C2_spec.2.1 envCf reqGetPayment1 sdkOracleOk (some paidOrderJson) rfl rfl rfl
      (by decide) (by decide) rfl).2.2.1⟩,
   ⟨(C2_spec.2.2.1 envApp reqOrderRow7 getOrderOracleOk
      [("order_id", Json.str "row_7")] (Json.str "row_7") paidOrderJson "PAID"
      rfl rfl rfl rfl rfl rfl rfl rfl rfl rfl rfl rfl).1,
    (C2_spec.2.2.1 envApp reqOrderRow7 getOrderOracleOk
      [("order_id", Json.str "row_7")] (Json.str "row_7") paidOrderJson "PAID"
      rfl rfl rfl rfl rfl rfl rfl rfl rfl rfl rfl rfl).2.2.1⟩,
   ⟨(C2_spec.2.2.2.1 envCf reqOrderId1 fetch2OracleOk
      [("orderId", Json.str "ord_1")] (Json.str "ord_1") paidOrderJson
      rfl rfl rfl rfl rfl rfl rfl rfl).1,
    (C2_spec.2.2.2.1 envCf reqOrderId1 fetch2OracleOk
      [("orderId", Json.str "ord_1")] (Json.str "ord_1") paidOrderJson
      rfl rfl rfl rfl rfl rfl rfl rfl).2.2.1⟩,
   ⟨(C2_spec.2.2.2.2.1 envCf reqOrderId1 fetch2OracleOk
      [("orderId", Json.str "ord_1")] (Json.str "ord_1") paidOrderJson
      rfl rfl rfl rfl rfl rfl rfl rfl).1,
    (C2_spec.2.2.2.2.1 envCf reqOrderId1 fetch2OracleOk
      [("orderId", Json.str "ord_1")] (Json.str "ord_1") paidOrderJson
      rfl rfl rfl rfl rfl rfl rfl rfl).2.2⟩,
   ⟨(C2_spec.2.2.2.2.2.1 envCf reqCreateValid create2OracleOk
      [("orderAmount", Json.num 100),
       ("customerDetails", Json.obj
         [("customerEmail", Json.str "jo@example.com"),
          ("customerPhone", Json.str "9999999999"),
          ("customerName", Json.str "Jo")])] paidOrderJson
      rfl rfl rfl rfl rfl rfl rfl rfl rfl rfl rfl).1,
    (C2_spec.2.2.2.2.2.1 envCf reqCreateValid create2OracleOk
      [("orderAmount", Json.num 100),
       ("customerDetails", Json.obj
         [("customerEmail", Json.str "jo@example.com"),
          ("customerPhone", Json.str "9999999999"),
          ("customerName", Json.str "Jo")])] paidOrderJson
      rfl rfl rfl rfl rfl rfl rfl rfl rfl rfl rfl).2.2.1⟩,
   ⟨(C2_spec.2.2.2.2.2.2 envApp reqCreateDbValid createDbOracleOk
      [("orderAmount", Json.num 100)] 100 (Json.str "row_7")
      rfl rfl rfl rfl rfl rfl rfl (by decide) rfl rfl rfl).1,
    (C2_spec.2.2.2.2.2.2 envApp reqCreateDbValid createDbOracleOk
      [("orderAmount", Json.num 100)] 100 (Json.str "row_7")
      rfl rfl rfl rfl rfl rfl rfl (by decide) rfl rfl rfl).2.2.1⟩⟩

/-- C3, counterexample: the claim asserts that on a non-2xx upstream status
the response has `success: false` and relays the upstream JSON message
verbatim.  functions/pg-get-order, on an upstream 404 whose JSON body says
`Order not found`, answers with a body that has no `success` field and whose
relayed detail is the synthesized `Cashfree API error: 404 Not Found`, not
the upstream message. -/
theorem C3_cex :
    (pgGetOrderRun envApp reqOrderRow7 getOrderOracle404).1.status = 500 ∧
    (pgGetOrderRun envApp reqOrderRow7 getOrderOracle404).1.body.getField
      "success" = none ∧
    (pgGetOrderRun envApp reqOrderRow7 getOrderOracle404).1.body.getField
      "details" = some (Json.str "Cashfree API error: 404 Not Found") ∧
    ¬ (pgGetOrderRun envApp reqOrderRow7 getOrderOracle404).1.body.getField
      "details" = some (Json.str "Order not found") := by
  refine ⟨rfl, rfl, rfl, ?_⟩
  intro h
  rw [show (pgGetOrderRun envApp reqOrderRow7 getOrderOracle404).1.body.getField
      "details" = some (Json.str "Cashfree API error: 404 Not Found") from rfl] at h
  simp at h

/-- C3, amended, for the plain fetch based handlers: a non-2xx upstream
status yields status 500 after exactly one upstream call (no retry).  The
functions-2 fetch handlers answer `success: false` relaying the upstream
JSON `message` verbatim when it is a non empty string; when the upstream
body fails to parse as JSON they relay the runtime parse error message,
falling back to a fixed default when that message is empty.
functions-2/pg-create-order relays the message inside
`Cashfree API Error: <message>`.  functions/pg-get-order ignores the
upstream body entirely and answers `{error, details}` with the synthesized
text `Cashfree API error: <status> <statusText>` and no `success` field. -/
theorem C3_spec :
    (∀ env req o fs oid od m,
      envTruthy env.cashfreeClientId = true →
      envTruthy env.cashfreeClientSecret = true →
      (req.method == "OPTIONS") = false →
      req.body = Except.ok (Json.obj fs) →
      (Json.obj fs).getField "orderId" = some oid →
      oid.truthy = true →
      o.upstreamJson = some od →
      respOk o.upstreamStatus = false →
      od.getField "message" = some (Json.str m) →
      m ≠ "" →
      (pgFetchOrder2Run env req o).1.status = 500 ∧
      (pgFetchOrder2Run env req o).1.body.getField "success" =
        some (Json.bool false) ∧
      (pgFetchOrder2Run env req o).1.body.getField "error" =
        some (Json.str m) ∧
      ((pgFetchOrder2Run env req o).2.filter ExtCall.isFetch).length = 1) ∧
    (∀ env req o fs oid od m,
      envTruthy env.cashfreeClientId = true →
      envTruthy env.cashfreeClientSecret = true →
      (req.method == "OPTIONS") = false →
      req.body = Except.ok (Json.obj fs) →
      (Json.obj fs).getField "orderId" = some oid →
      oid.truthy = true →
      o.upstreamJson = some od →
      respOk o.upstreamStatus = false →
      od.getField "message" = some (Json.str m) →
      m ≠ "" →
      (pgOrderFetchPayments2Run env req o).1.status = 500 ∧
      (pgOrderFetchPayments2Run env req o).1.body.getField "success" =
        some (Json.bool false) ∧
      (pgOrderFetchPayments2Run env req o).1.body.getField "error" =
        some (Json.str m) ∧
      ((pgOrderFetchPayments2Run env req o).2.filter ExtCall.isFetch).length = 1) ∧
    (∀ env req o fs oid,
      envTruthy env.cashfreeClientId = true →
      envTruthy env.cashfreeClientSecret = true →
      (req.method == "OPTIONS") = false →
      req.body = Except.ok (Json.obj fs) →
      (Json.obj fs).getField "orderId" = some oid →
      oid.truthy = true →
      o.upstreamJson = none →
      (pgFetchOrder2Run env req o).1.status = 500 ∧
      (pgFetchOrder2Run env req o).1.body.getField "error" =
        some (Json.str (jsOrStr o.parseErrMsg "Failed to verify payment status")) ∧
      ((pgFetchOrder2Run env req o).2.filter ExtCall.isFetch).length = 1) ∧
    (∀ env req o fs oid,
      (req.method == "OPTIONS") = false →
      req.body = Except.ok (Json.obj fs) →
      (Json.obj fs).getField "order_id" = some oid →
      oid.truthy = true →
      envTruthy env.supabaseUrl = true →
      envTruthy env.supabaseServiceRoleKey = true →
      envTruthy env.cashfreeAppId = true →
      envTruthy env.cashfreeSecretKey = true →
      respOk o.upstreamStatus = false →
      (pgGetOrderRun env req o).1.status = 500 ∧
      (pgGetOrderRun env req o).1.body.getField "success" = none ∧
      (pgGetOrderRun env req o).1.body.getField "details" =
        some (Json.str ("Cashfree API error: " ++ toString o.upstreamStatus ++
          " " ++ o.upstreamStatusText)) ∧
      ((pgGetOrderRun env req o).2.filter ExtCall.isFetch).length = 1) ∧
    (∀ env req o fs rd m,
      envTruthy env.cashfreeClientId = true →
      envTruthy env.cashfreeClientSecret = true →
      (req.method == "OPTIONS") = false →
      req.body = Except.ok (Json.obj fs) →
      jsTruthy ((Json.obj fs).getField "orderAmount") = true →
      jsTruthy ((Json.obj fs).getField "customerDetails") = true →
      jsTruthy (jsGet ((Json.obj fs).getField "customerDetails") "customerEmail") = true →
      jsTruthy (jsGet ((Json.obj fs).getField "customerDetails") "customerPhone") = true →
      jsTruthy (jsGet ((Json.obj fs).getField "customerDetails") "customerName") = true →
      o.upstreamJson = some rd →
      respOk o.upstreamStatus = false →
      rd.getField "message" = some (Json.str m) →
      m ≠ "" →
      (pgCreateOrder2Run env req o).1.status = 500 ∧
      (pgCreateOrder2Run env req o).1.body.getField "success" =
        some (Json.bool false) ∧
      (pgCreateOrder2Run env req o).1.body.getField "error" =
        some (Json.str ("Cashfree API Error: " ++ m)) ∧
      ((pgCreateOrder2Run env req o).2.filter ExtCall.isFetch).length = 1) := by
  refine ⟨?_, ?_, ?_, ?_, ?_⟩
  · intro env req o fs oid od m hcid hcs hm hb hf ht hj hok hmsg hne
    have hmb : (m == "") = false := by
      rw [beq_eq_false_iff_ne]
      exact hne
    refine ⟨?_, ?_, ?_, ?_⟩ <;>
      simp [pgFetchOrder2Run, pgFetchOrder2Catch, hcid, hcs, hm, hb, hf, ht, hj,
        hok, upstreamMessageOr, hmsg, jsOrJson, Json.truthy_str, jsToString, hmb,
        hne, jsOrStr, failEnvelope, Json.getField_obj, List.lookup, ExtCall.isFetch]
  · intro env req o fs oid od m hcid hcs hm hb hf ht hj hok hmsg hne
    have hmb : (m == "") = false := by
      rw [beq_eq_false_iff_ne]
      exact hne
    refine ⟨?_, ?_, ?_, ?_⟩ <;>
      simp [pgOrderFetchPayments2Run, pgOrderFetchPayments2Catch, hcid, hcs, hm,
        hb, hf, ht, hj, hok, upstreamMessageOr, hmsg, jsOrJson, Json.truthy_str,
        jsToString, hmb, hne, jsOrStr, failEnvelope, Json.getField_obj, List.lookup,
        ExtCall.isFetch]
  · intro env req o fs oid hcid hcs hm hb hf ht hj
    refine ⟨?_, ?_, ?_⟩ <;>
      simp [pgFetchOrder2Run, pgFetchOrder2Catch, hcid, hcs, hm, hb, hf, ht, hj,
        failEnvelope, Json.getField_obj, List.lookup, ExtCall.isFetch]
  · intro env req o fs oid hm hb hf ht hsu hsk hca hcs hok
    refine ⟨?_, ?_, ?_, ?_⟩ <;>
      simp [pgGetOrderRun, hm, hb, hf, ht, hsu, hsk, hca, hcs, hok,
        getOrderErrBody, Json.getField_obj, List.lookup, ExtCall.isFetch,
        pgGetOrderFetchCall]
  · intro env req o fs rd m hcid hcs hm hb ha hcd he hp hn hj hok hmsg hne
    simp only [Json.getField_obj] at ha hcd he hp hn
    have hmb : (m == "") = false := by
      rw [beq_eq_false_iff_ne]
      exact hne
    have hcat : ¬ ("Cashfree API Error: " ++ m) = "" := by
      intro hx
      have hlen : ("Cashfree API Error: " ++ m).length = (0 : Nat) := by
        rw [hx]
        rfl
      have h20 : "Cashfree API Error: ".length = 20 := rfl
      rw [String.length_append, h20] at hlen
      omega
    refine ⟨?_, ?_, ?_, ?_⟩ <;>
      simp [pgCreateOrder2Run, pgCreateOrder2Catch, pgCreateOrder2ErrorMessage,
        hcid, hcs, hm, hb, ha, hcd, he, hp, hn, hj, hok, hmsg, jsOrJson,
        Json.truthy_str, jsToString, hmb, hne, hcat, jsOrStr, Json.getField_obj,
        List.lookup, ExtCall.isFetch]

/-- C3, witness: the amended statement evaluated on an upstream 404 carrying
the JSON message `Order not found`, and on an unparsable upstream body. -/
theorem C3_witness :
    ((pgFetchOrder2Run envCf reqOrderId1 fetch2Oracle404).1.status = 500 ∧
      (pgFetchOrder2Run envCf reqOrderId1 fetch2Oracle404).1.body.getField
        "error" = some (Json.str "Order not found")) ∧
    ((pgOrderFetchPayments2Run envCf reqOrderId1 fetch2Oracle404).1.status = 500 ∧
      (pgOrderFetchPayments2Run envCf reqOrderId1 fetch2Oracle404).1.body.getField
        "error" = some (Json.str "Order not found")) ∧
    ((pgFetchOrder2Run envCf reqOrderId1 fetch2OracleBadJson).1.body.getField
        "error" =
      some (Json.str (jsOrStr fetch2OracleBadJson.parseErrMsg
        "Failed to verify payment status"))) ∧
    ((pgGetOrderRun envApp reqOrderRow7 getOrderOracle404).1.status = 500 ∧
      (pgGetOrderRun envApp reqOrderRow7 getOrderOracle404).1.body.getField
        "details" = some (Json.str ("Cashfree API error: " ++ toString 404 ++
          " " ++ "Not Found"))) ∧
    ((pgCreateOrder2Run envCf reqCreateValid create2Oracle404).1.body.getField
        "error" = some (Json.str ("Cashfree API Error: " ++ "Order not found"))) :=
  ⟨⟨(C3_spec.1 envCf reqOrderId1 fetch2Oracle404 [("orderId", Json.str "ord_1")]
      (Json.str "ord_1") (Json.obj [("message", Json.str "Order not found")])
      "Order not found" rfl rfl rfl rfl rfl rfl rfl rfl rfl (by decide)).1,
    (C3_spec.1 envCf reqOrderId1 fetch2Oracle404 [("orderId", Json.str "ord_1")]
      (Json.str "ord_1") (Json.obj [("message", Json.str "Order not found")])
      "Order not found" rfl rfl rfl rfl rfl rfl rfl rfl rfl (by decide)).2.2.1⟩,
   ⟨(C3_spec.2.1 envCf reqOrderId1 fetch2Oracle404 [("orderId", Json.str "ord_1")]
      (Json.str "ord_1") (Json.obj [("message", Json.str "Order not found")])
      "Order not found" rfl rfl rfl rfl rfl rfl rfl rfl rfl (by decide)).1,
    (C3_spec.2.1 envCf reqOrderId1 fetch2Oracle404 [("orderId", Json.str "ord_1")]
      (Json.str "ord_1") (Json.obj [("message", Json.str "Order not found")])
      "Order not found" rfl rfl rfl rfl rfl rfl rfl rfl rfl (by decide)).2.2.1⟩,
   (C3_spec.2.2.1 envCf reqOrderId1 fetch2OracleBadJson
      [("orderId", Json.str "ord_1")] (Json.str "ord_1")
      rfl rfl rfl rfl rfl rfl rfl).2.1,
   ⟨(C3_spec.2.2.2.1 envApp reqOrderRow7 getOrderOracle404
      [("order_id", Json.str "row_7")] (Json.str "row_7")
      rfl rfl rfl rfl rfl rfl rfl rfl rfl).1,
    (C3_spec.2.2.2.1 envApp reqOrderRow7 getOrderOracle404
      [("order_id", Json.str "row_7")] (Json.str "row_7")
      rfl rfl rfl rfl rfl rfl rfl rfl rfl).2.2.1⟩,
   (C3_spec.2.2.2.2 envCf reqCreateValid create2Oracle404
      [("orderAmount", Json.num 100),
       ("customerDetails", Json.obj
         [("customerEmail", Json.str "jo@example.com"),
          ("customerPhone", Json.str "9999999999"),
          ("customerName", Json.str "Jo")])]
      (Json.obj [("message", Json.str "Order not found")]) "Order not found"
      rfl rfl rfl rfl rfl rfl rfl rfl rfl rfl rfl rfl (by decide)).2.2.1⟩

/-- C4, counterexample: the claim asserts that functions-2/pg-fetch-order
selects the production base URL whenever the environment flag is absent or
unrecognized.  With the unrecognized flag value `STAGING` the handler issues
its upstream call against the sandbox base URL, not the production one. -/
theorem C4_cex :
    (pgFetchOrder2Run envCfStaging reqOrderId1 fetch2OracleOk).2 =
      [ExtCall.fetch "https://sandbox.cashfree.com/pg/orders/ord_1" "GET"
        [("Content-Type", "application/json"), ("x-api-version", "2023-08-01"),
         ("x-client-id", "cid"), ("x-client-secret", "csecret")] none] ∧
    "https://sandbox.cashfree.com/pg/orders/ord_1" ≠
      "https://api.cashfree.com/pg/orders/ord_1" := by
  constructor
  · rfl
  · decide

/-- C4, amended: when the environment flag is absent, functions/pg-fetch-order
selects SANDBOX while functions-2/pg-fetch-order selects the production base
URL, so the two near duplicates default differently; when the flag is present
but unrecognized (neither `PRODUCTION` nor, for the second handler, empty),
both handlers select sandbox. -/
theorem C4_spec :
    (∀ oid, pgFetchOrder1SdkEnvironment none = "SANDBOX" ∧
       pgFetchOrder2ApiUrl none oid =
         "https://api.cashfree.com/pg/orders/" ++ jsToString oid) ∧
    (∀ s, s ≠ "PRODUCTION" → pgFetchOrder1SdkEnvironment (some s) = "SANDBOX") ∧
    (∀ s oid, s ≠ "PRODUCTION" → s ≠ "" →
       pgFetchOrder2ApiUrl (some s) oid =
         "https://sandbox.cashfree.com/pg/orders/" ++ jsToString oid) := by
  refine ⟨fun oid => ⟨rfl, rfl⟩, ?_, ?_⟩
  · intro s h
    by_cases hs : s = ""
    · simp [pgFetchOrder1SdkEnvironment, jsOr, hs]
    · simp [pgFetchOrder1SdkEnvironment, jsOr, hs, h]
  · intro s oid h hne
    simp [pgFetchOrder2ApiUrl, jsOr, hne, h]

/-- C4, witness: the amended statement evaluated at the flag value
`STAGING` and at the absent flag. -/
theorem C4_witness :
    pgFetchOrder1SdkEnvironment (some "STAGING") = "SANDBOX" ∧
    pgFetchOrder2ApiUrl (some "STAGING") (Json.str "ord_1") =
      "https://sandbox.cashfree.com/pg/orders/" ++ jsToString (Json.str "ord_1") ∧
    pgFetchOrder2ApiUrl none (Json.str "ord_1") =
      "https://api.cashfree.com/pg/orders/" ++ jsToString (Json.str "ord_1") :=
  ⟨C4_spec.2.1 "STAGING" (by decide),
   C4_spec.2.2 "STAGING" (Json.str "ord_1") (by decide) (by decide),
   (C4_spec.1 (Json.str "ord_1")).2⟩

/-- C7, counterexample: the claim asserts that an unsupported, non OPTIONS
method yields status 405 on every GET only or POST only handler.
functions-2/pg-order-fetch-payments performs no method check: a DELETE
request with no body fails at body parsing and is answered with status 500,
never 405. -/
theorem C7_cex :
    (pgOrderFetchPayments2Run envCf reqDelete fetch2OracleOk).1.status = 500 ∧
    ¬ (pgOrderFetchPayments2Run envCf reqDelete fetch2OracleOk).1.status = 405 := by
  refine ⟨rfl, ?_⟩
  intro h
  rw [show (pgOrderFetchPayments2Run envCf reqDelete fetch2OracleOk).1.status = 500
    from rfl] at h
  simp at h

/-- C7, amended: the two GET handlers under functions/ answer 405 for any
method other than GET and OPTIONS (given present credentials, whose check
precedes the method check); the three functions-2 handlers perform no method
check at all: any two non OPTIONS methods are processed identically. -/
theorem C7_spec :
    (∀ env req sdk,
      envTruthy env.cashfreeClientId = true →
      envTruthy env.cashfreeClientSecret = true →
      (req.method == "OPTIONS") = false →
      (req.method == "GET") = false →
      (pgFetchOrder1Run env req sdk).1.status = 405 ∧
      (pgFetchOrder1Run env req sdk).1.body.getField "success" =
        some (Json.bool false)) ∧
    (∀ env req sdk,
      envTruthy env.cashfreeClientId = true →
      envTruthy env.cashfreeClientSecret = true →
      (req.method == "OPTIONS") = false →
      (req.method == "GET") = false →
      (pgOrderFetchPaymentRun env req sdk).1.status = 405 ∧
      (pgOrderFetchPaymentRun env req sdk).1.body.getField "success" =
        some (Json.bool false)) ∧
    (∀ env (req : Request) o m1 m2,
      (m1 == "OPTIONS") = false →
      (m2 == "OPTIONS") = false →
      pgCreateOrder2Run env { req with method := m1 } o =
        pgCreateOrder2Run env { req with method := m2 } o) ∧
    (∀ env (req : Request) o m1 m2,
      (m1 == "OPTIONS") = false →
      (m2 == "OPTIONS") = false →
      pgFetchOrder2Run env { req with method := m1 } o =
        pgFetchOrder2Run env { req with method := m2 } o) ∧
    (∀ env (req : Request) o m1 m2,
      (m1 == "OPTIONS") = false →
      (m2 == "OPTIONS") = false →
      pgOrderFetchPayments2Run env { req with method := m1 } o =
        pgOrderFetchPayments2Run env { req with method := m2 } o) := by
  refine ⟨?_, ?_, ?_, ?_, ?_⟩
  · intro env req sdk hcid hcs hm hg
    simp [pgFetchOrder1Run, hcid, hcs, hm, hg, failEnvelope, Json.getField_obj,
      List.lookup]
  · intro env req sdk hcid hcs hm hg
    simp [pgOrderFetchPaymentRun, hcid, hcs, hm, hg, failEnvelope,
      Json.getField_obj, List.lookup]
  · intro env req o m1 m2 h1 h2
    cases req
    simp [pgCreateOrder2Run, h1, h2]
  · intro env req o m1 m2 h1 h2
    cases req
    simp [pgFetchOrder2Run, h1, h2]
  · intro env req o m1 m2 h1 h2
    cases req
    simp [pgOrderFetchPayments2Run, h1, h2]

/-- C7, witness: the amended statement evaluated at a PUT on the GET
handlers and at DELETE versus POST on the functions-2 handlers. -/
theorem C7_witness :
    ((pgFetchOrder1Run envCf { method := "PUT" } sdkOracleOk).1.status = 405 ∧
      (pgFetchOrder1Run envCf { method := "PUT" } sdkOracleOk).1.body.getField
        "success" = some (Json.bool false)) ∧
    ((pgOrderFetchPaymentRun envCf { method := "PUT" } sdkOracleOk).1.status = 405 ∧
      (pgOrderFetchPaymentRun envCf { method := "PUT" } sdkOracleOk).1.body.getField
        "success" = some (Json.bool false)) ∧
    pgOrderFetchPayments2Run envCf { reqOrderId1 with method := "DELETE" }
        fetch2OracleOk =
      pgOrderFetchPayments2Run envCf { reqOrderId1 with method := "POST" }
        fetch2OracleOk :=
  ⟨C7_spec.1 envCf { method := "PUT" } sdkOracleOk rfl rfl rfl rfl,
   C7_spec.2.1 envCf { method := "PUT" } sdkOracleOk rfl rfl rfl rfl,
   C7_spec.2.2.2.2 envCf reqOrderId1 fetch2OracleOk "DELETE" "POST" rfl rfl⟩

/-- C8, counterexample: the claim asserts that an identifier is also
resolved from the JSON body after the path and query channels.  A GET
request to functions/pg-fetch-order whose `order_id` is present (and non
empty) only in the body is rejected with status 400: the body channel does
not exist in the code. -/
theorem C8_cex :
    jsTruthy ((Json.obj [("order_id", Json.str "ord_9")]).getField "order_id") =
      true ∧
    (pgFetchOrder1Run envCf reqBodyOnlyOrder sdkOracleOk).1.status = 400 ∧
    ¬ (pgFetchOrder1Run envCf reqBodyOnlyOrder sdkOracleOk).1.status = 200 := by
  refine ⟨rfl, rfl, ?_⟩
  intro h
  rw [show (pgFetchOrder1Run envCf reqBodyOnlyOrder sdkOracleOk).1.status = 400
    from rfl] at h
  simp at h

/-- C8, amended: resolution tries the path segment immediately after the
route name first and the query parameter of the same name second, the first
non empty source winning with no merging (a non empty path segment takes
precedence over any query parameter); the request body is never consulted:
for both multi channel handlers the whole response is independent of the
body. -/
theorem C8_spec :
    (∀ parts query, segAfter "pg-fetch-order" parts 1 ≠ "" →
      pgFetchOrder1OrderId parts query = segAfter "pg-fetch-order" parts 1) ∧
    (∀ parts query, segAfter "pg-fetch-order" parts 1 = "" →
      pgFetchOrder1OrderId parts query = lookupQuery query "order_id") ∧
    (∀ env (req : Request) sdk b,
      pgFetchOrder1Run env { req with body := b } sdk =
        pgFetchOrder1Run env req sdk) ∧
    (∀ parts query, segAfter "pg-order-fetch-payment" parts 1 ≠ "" →
      (pgOrderFetchPaymentIds parts query).1 =
        segAfter "pg-order-fetch-payment" parts 1) ∧
    (∀ parts query, segAfter "pg-order-fetch-payment" parts 1 = "" →
      (pgOrderFetchPaymentIds parts query).1 = lookupQuery query "order_id") ∧
    (∀ parts query, segAfter "pg-order-fetch-payment" parts 2 ≠ "" →
      (pgOrderFetchPaymentIds parts query).2 =
        segAfter "pg-order-fetch-payment" parts 2) ∧
    (∀ parts query, segAfter "pg-order-fetch-payment" parts 2 = "" →
      (pgOrderFetchPaymentIds parts query).2 = lookupQuery query "cf_payment_id") ∧
    (∀ env (req : Request) sdk b,
      pgOrderFetchPaymentRun env { req with body := b } sdk =
        pgOrderFetchPaymentRun env req sdk) := by
  refine ⟨?_, ?_, ?_, ?_, ?_, ?_, ?_, ?_⟩
  · intro parts query h
    have hb : (segAfter "pg-fetch-order" parts 1 == "") = false := by
      rw [beq_eq_false_iff_ne]
      exact h
    simp [pgFetchOrder1OrderId, hb]
  · intro parts query h
    simp [pgFetchOrder1OrderId, h]
  · intro env req sdk b
    cases req
    simp [pgFetchOrder1Run]
  · intro parts query h
    have hb : (segAfter "pg-order-fetch-payment" parts 1 == "") = false := by
      rw [beq_eq_false_iff_ne]
      exact h
    simp [pgOrderFetchPaymentIds, hb]
  · intro parts query h
    simp [pgOrderFetchPaymentIds, h]
  · intro parts query h
    have hb : (segAfter "pg-order-fetch-payment" parts 2 == "") = false := by
      rw [beq_eq_false_iff_ne]
      exact h
    simp [pgOrderFetchPaymentIds, hb]
  · intro parts query h
    simp [pgOrderFetchPaymentIds, h]
  · intro env req sdk b
    cases req
    simp [pgOrderFetchPaymentRun]

/-- C8, witness: path precedence over a conflicting query parameter, the
query fallback, and body independence, each at concrete inputs. -/
theorem C8_witness :
    pgFetchOrder1OrderId ["functions", "v1", "pg-fetch-order", "ord_path"]
      [("order_id", "ord_query")] =
      segAfter "pg-fetch-order" ["functions", "v1", "pg-fetch-order", "ord_path"] 1 ∧
    pgFetchOrder1OrderId ["functions", "v1", "pg-fetch-order"]
      [("order_id", "ord_query")] =
      lookupQuery [("order_id", "ord_query")] "order_id" ∧
    pgFetchOrder1Run envCf { reqGetPath1 with body := Except.ok paidOrderJson }
        sdkOracleOk =
      pgFetchOrder1Run envCf reqGetPath1 sdkOracleOk ∧
    (pgOrderFetchPaymentIds
      ["functions", "v1", "pg-order-fetch-payment", "ord_path", "pay_path"]
      [("order_id", "ord_query"), ("cf_payment_id", "pay_query")]).2 =
      segAfter "pg-order-fetch-payment"
        ["functions", "v1", "pg-order-fetch-payment", "ord_path", "pay_path"] 2 :=
  ⟨C8_spec.1 ["functions", "v1", "pg-fetch-order", "ord_path"]
      [("order_id", "ord_query")] (by decide),
   C8_spec.2.1 ["functions", "v1", "pg-fetch-order"]
      [("order_id", "ord_query")] (by decide),
   C8_spec.2.2.1 envCf reqGetPath1 sdkOracleOk (Except.ok paidOrderJson),
   C8_spec.2.2.2.2.2.1
      ["functions", "v1", "pg-order-fetch-payment", "ord_path", "pay_path"]
      [("order_id", "ord_query"), ("cf_payment_id", "pay_query")] (by decide)⟩

/-- C9: on a successful upstream response carrying `order_status` `s`, the
order status handler reports `isPaid` exactly when `s` is `PAID`, and
`paymentStatus` equal to `s` verbatim, with status 200. -/
theorem C9_spec (env : Env) (req : Request) (o : Fetch2Oracle)
    (fs : List (String × Json)) (oid od : Json) (s : String)
    (hcid : envTruthy env.cashfreeClientId = true)
    (hcs : envTruthy env.cashfreeClientSecret = true)
    (hm : (req.method == "OPTIONS") = false)
    (hb : req.body = Except.ok (Json.obj fs))
    (hfield : (Json.obj fs).getField "orderId" = some oid)
    (ht : oid.truthy = true)
    (hj : o.upstreamJson = some od)
    (hok : respOk o.upstreamStatus = true)
    (hst : od.getField "order_status" = some (Json.str s)) :
    (pgFetchOrder2Run env req o).1.status = 200 ∧
    (pgFetchOrder2Run env req o).1.body.getField "isPaid" =
      some (Json.bool (s == "PAID")) ∧
    (pgFetchOrder2Run env req o).1.body.getField "paymentStatus" =
      some (Json.str s) := by
  simp only [pgFetchOrder2Run, hm, hb, hfield, ht, hcid, hcs, hj, hok, Bool.not_true,
    Bool.false_or, Bool.or_self, if_false, Bool.not_false, if_true]
  simp [objWithOpt, Json.getField_obj, isStatusPaid, hst, List.lookup]

/-- C10: the upstream request of functions/pg-get-order is
`pgGetOrderFetchCall env`, a constant of the environment alone: every request
that passes validation issues exactly that call, so two requests differing
only in `order_id` issue identical upstream requests; yet the datastore
update that follows a successful upstream call targets the row whose `id`
equals the supplied `order_id`. -/
theorem C10_spec :
    (∀ env req o fs oid,
      (req.method == "OPTIONS") = false →
      req.body = Except.ok (Json.obj fs) →
      (Json.obj fs).getField "order_id" = some oid →
      oid.truthy = true →
      envTruthy env.supabaseUrl = true →
      envTruthy env.supabaseServiceRoleKey = true →
      envTruthy env.cashfreeAppId = true →
      envTruthy env.cashfreeSecretKey = true →
      (pgGetOrderRun env req o).2.filter ExtCall.isFetch = [pgGetOrderFetchCall env]) ∧
    (∀ env req o fs oid cj st,
      (req.method == "OPTIONS") = false →
      req.body = Except.ok (Json.obj fs) →
      (Json.obj fs).getField "order_id" = some oid →
      oid.truthy = true →
      envTruthy env.supabaseUrl = true →
      envTruthy env.supabaseServiceRoleKey = true →
      envTruthy env.cashfreeAppId = true →
      envTruthy env.cashfreeSecretKey = true →
      respOk o.upstreamStatus = true →
      o.upstreamJson = some cj →
      cj.getField "order_status" = some (Json.str st) →
      (pgGetOrderRun env req o).2 =
        [pgGetOrderFetchCall env,
         ExtCall.dbUpdate "orders" (Json.obj [("status", Json.str st.toLower)]) "id" oid]) ∧
    (∀ env m p q o fs1 fs2 oid1 oid2,
      (m == "OPTIONS") = false →
      (Json.obj fs1).getField "order_id" = some oid1 →
      oid1.truthy = true →
      (Json.obj fs2).getField "order_id" = some oid2 →
      oid2.truthy = true →
      envTruthy env.supabaseUrl = true →
      envTruthy env.supabaseServiceRoleKey = true →
      envTruthy env.cashfreeAppId = true →
      envTruthy env.cashfreeSecretKey = true →
      (pgGetOrderRun env
        { method := m, pathParts := p, query := q, body := Except.ok (Json.obj fs1) } o).2.filter
          ExtCall.isFetch =
      (pgGetOrderRun env
        { method := m, pathParts := p, query := q, body := Except.ok (Json.obj fs2) } o).2.filter
          ExtCall.isFetch) := by
  have hA : ∀ env req (o : GetOrderOracle) fs oid,
      (req.method == "OPTIONS") = false →
      req.body = Except.ok (Json.obj fs) →
      (Json.obj fs).getField "order_id" = some oid →
      oid.truthy = true →
      envTruthy env.supabaseUrl = true →
      envTruthy env.supabaseServiceRoleKey = true →
      envTruthy env.cashfreeAppId = true →
      envTruthy env.cashfreeSecretKey = true →
      (pgGetOrderRun env req o).2.filter ExtCall.isFetch = [pgGetOrderFetchCall env] := by
    intro env req o fs oid hm hb hf ht hsu hsk hca hcs
    simp only [pgGetOrderRun, hm, hb, hf, ht, hsu, hsk, hca, hcs, Bool.not_true,
      Bool.or_self, Bool.false_or, if_false, Bool.not_false, if_true]
    by_cases hok : respOk o.upstreamStatus = true
    · simp only [hok, Bool.not_true, if_false]
      cases hj : o.upstreamJson with
      | none => simp [ExtCall.isFetch, pgGetOrderFetchCall]
      | some cj =>
          cases hst : cj.getField "order_status" with
          | none => simp [hst, ExtCall.isFetch, pgGetOrderFetchCall]
          | some v =>
              cases v <;> cases o.updateError <;>
                simp [hst, ExtCall.isFetch, pgGetOrderFetchCall]
    · rw [Bool.not_eq_true] at hok
      simp [hok, ExtCall.isFetch, pgGetOrderFetchCall]
  refine ⟨hA, ?_, ?_⟩
  · intro env req o fs oid cj st hm hb hf ht hsu hsk hca hcs hok hj hst
    simp only [pgGetOrderRun, hm, hb, hf, ht, hsu, hsk, hca, hcs, hok, hj, hst,
      Bool.not_true, Bool.or_self, Bool.false_or, if_false, Bool.not_false, if_true]
    cases hu : o.updateError <;> simp [hu]
  · intro env m p q o fs1 fs2 oid1 oid2 hm hf1 ht1 hf2 ht2 hsu hsk hca hcs
    rw [hA env _ o fs1 oid1 hm rfl hf1 ht1 hsu hsk hca hcs,
       hA env _ o fs2 oid2 hm rfl hf2 ht2 hsu hsk hca hcs]

/-- C10, witness: the three parts of the statement evaluated at concrete
requests carrying `order_id` values `row_7` and `row_8`. -/
theorem C10_witness :
    (pgGetOrderRun envApp
      { method := "POST", body := Except.ok (Json.obj [("order_id", Json.str "row_7")]) }
      { upstreamStatus := 200, upstreamStatusText := "OK",
        upstreamJson := some paidOrderJson, parseErrMsg := "", typeErrMsg := "",
        updateError := none }).2 =
      [pgGetOrderFetchCall envApp,
       ExtCall.dbUpdate "orders" (Json.obj [("status", Json.str "PAID".toLower)]) "id"
         (Json.str "row_7")] ∧
    (pgGetOrderRun envApp
      { method := "POST", body := Except.ok (Json.obj [("order_id", Json.str "row_7")]) }
      { upstreamStatus := 200, upstreamStatusText := "OK",
        upstreamJson := some paidOrderJson, parseErrMsg := "", typeErrMsg := "",
        updateError := none }).2.filter ExtCall.isFetch =
    (pgGetOrderRun envApp
      { method := "POST", body := Except.ok (Json.obj [("order_id", Json.str "row_8")]) }
      { upstreamStatus := 200, upstreamStatusText := "OK",
        upstreamJson := some paidOrderJson, parseErrMsg := "", typeErrMsg := "",
        updateError := none }).2.filter ExtCall.isFetch :=
  ⟨C10_spec.2.1 envApp _ _ [("order_id", Json.str "row_7")] (Json.str "row_7")
      paidOrderJson "PAID" rfl rfl rfl rfl rfl rfl rfl rfl rfl rfl rfl,
   C10_spec.2.2 envApp "POST" [] [] _ [("order_id", Json.str "row_7")]
      [("order_id", Json.str "row_8")] (Json.str "row_7") (Json.str "row_8")
      rfl rfl rfl rfl rfl rfl rfl rfl rfl⟩

/-- C5: in every handler, when the client credential pair the handler reads
is incomplete, the response status is 500 and the list of external calls is
empty: the configuration failure is surfaced before any upstream HTTP call
and before any datastore call.  For functions/pg-get-order the credential
check sits after body validation, so that part assumes a body carrying a
truthy `order_id`. -/
theorem C5_spec :
    (∀ env req sdk,
      (envTruthy env.cashfreeClientId = false ∨ envTruthy env.cashfreeClientSecret = false) →
      (req.method == "OPTIONS") = false →
      (pgFetchOrder1Run env req sdk).1.status = 500 ∧ (pgFetchOrder1Run env req sdk).2 = []) ∧
    (∀ env req sdk,
      (envTruthy env.cashfreeClientId = false ∨ envTruthy env.cashfreeClientSecret = false) →
      (req.method == "OPTIONS") = false →
      (pgOrderFetchPaymentRun env req sdk).1.status = 500 ∧
        (pgOrderFetchPaymentRun env req sdk).2 = []) ∧
    (∀ env req o fs oid,
      (envTruthy env.cashfreeAppId = false ∨ envTruthy env.cashfreeSecretKey = false) →
      (req.method == "OPTIONS") = false →
      req.body = Except.ok (Json.obj fs) →
      (Json.obj fs).getField "order_id" = some oid →
      oid.truthy = true →
      (pgGetOrderRun env req o).1.status = 500 ∧ (pgGetOrderRun env req o).2 = []) ∧
    (∀ env req o,
      (envTruthy env.cashfreeClientId = false ∨ envTruthy env.cashfreeClientSecret = false) →
      (req.method == "OPTIONS") = false →
      (pgCreateOrder2Run env req o).1.status = 500 ∧ (pgCreateOrder2Run env req o).2 = []) ∧
    (∀ env req o,
      (envTruthy env.cashfreeClientId = false ∨ envTruthy env.cashfreeClientSecret = false) →
      (req.method == "OPTIONS") = false →
      (pgFetchOrder2Run env req o).1.status = 500 ∧ (pgFetchOrder2Run env req o).2 = []) ∧
    (∀ env req o,
      (envTruthy env.cashfreeClientId = false ∨ envTruthy env.cashfreeClientSecret = false) →
      (req.method == "OPTIONS") = false →
      (pgOrderFetchPayments2Run env req o).1.status = 500 ∧
        (pgOrderFetchPayments2Run env req o).2 = []) ∧
    (∀ env req o,
      (envTruthy env.cashfreeAppId = false ∨ envTruthy env.cashfreeSecretKey = false) →
      (req.method == "OPTIONS") = false →
      (pgCreateOrderDbRun env req o).1.status = 500 ∧ (pgCreateOrderDbRun env req o).2 = []) := by
  refine ⟨?_, ?_, ?_, ?_, ?_, ?_, ?_⟩
  · intro env req sdk hcred hm
    rcases hcred with h | h <;> simp [pgFetchOrder1Run, hm, h]
  · intro env req sdk hcred hm
    rcases hcred with h | h <;> simp [pgOrderFetchPaymentRun, hm, h]
  · intro env req o fs oid hcred hm hb hf ht
    simp only [pgGetOrderRun, hm, hb, hf, ht, Bool.not_true, if_false,
      Bool.not_false, if_true]
    by_cases hsu : envTruthy env.supabaseUrl = true
    · by_cases hsk : envTruthy env.supabaseServiceRoleKey = true
      · rcases hcred with h | h <;> simp [hsu, hsk, h]
      · rw [Bool.not_eq_true] at hsk
        simp [hsu, hsk]
    · rw [Bool.not_eq_true] at hsu
      simp [hsu]
  · intro env req o hcred hm
    rcases hcred with h | h <;> simp [pgCreateOrder2Run, hm, h]
  · intro env req o hcred hm
    rcases hcred with h | h <;> simp [pgFetchOrder2Run, pgFetchOrder2Catch, hm, h]
  · intro env req o hcred hm
    rcases hcred with h | h <;>
      simp [pgOrderFetchPayments2Run, pgOrderFetchPayments2Catch, hm, h]
  · intro env req o hcred hm
    simp only [pgCreateOrderDbRun, hm, Bool.not_true, if_false, Bool.not_false, if_true]
    by_cases hsu : envTruthy env.supabaseUrl = true
    · by_cases hsk : envTruthy env.supabaseServiceRoleKey = true
      · rcases hcred with h | h <;> simp [hsu, hsk, h]
      · rw [Bool.not_eq_true] at hsk
        simp [hsu, hsk]
    · rw [Bool.not_eq_true] at hsu
      simp [hsu]

/-- C5, witness: all seven handlers evaluated in the empty environment on
concrete requests answer 500 with no external call. -/
theorem C5_witness :
    ((pgFetchOrder1Run {} reqGetPath1 sdkOracleOk).1.status = 500 ∧
      (pgFetchOrder1Run {} reqGetPath1 sdkOracleOk).2 = []) ∧
    ((pgOrderFetchPaymentRun {} reqGetPayment1 sdkOracleOk).1.status = 500 ∧
      (pgOrderFetchPaymentRun {} reqGetPayment1 sdkOracleOk).2 = []) ∧
    ((pgGetOrderRun envDbOnly reqOrderRow7 getOrderOracleOk).1.status = 500 ∧
      (pgGetOrderRun envDbOnly reqOrderRow7 getOrderOracleOk).2 = []) ∧
    ((pgCreateOrder2Run {} reqCreateValid create2OracleOk).1.status = 500 ∧
      (pgCreateOrder2Run {} reqCreateValid create2OracleOk).2 = []) ∧
    ((pgFetchOrder2Run {} reqOrderId1 fetch2OracleOk).1.status = 500 ∧
      (pgFetchOrder2Run {} reqOrderId1 fetch2OracleOk).2 = []) ∧
    ((pgOrderFetchPayments2Run {} reqOrderId1 fetch2OracleOk).1.status = 500 ∧
      (pgOrderFetchPayments2Run {} reqOrderId1 fetch2OracleOk).2 = []) ∧
    ((pgCreateOrderDbRun {} reqCreateDbValid createDbOracleOk).1.status = 500 ∧
      (pgCreateOrderDbRun {} reqCreateDbValid createDbOracleOk).2 = []) :=
  ⟨C5_spec.1 {} reqGetPath1 sdkOracleOk (Or.inl rfl) rfl,
   C5_spec.2.1 {} reqGetPayment1 sdkOracleOk (Or.inl rfl) rfl,
   C5_spec.2.2.1 envDbOnly reqOrderRow7 getOrderOracleOk
     [("order_id", Json.str "row_7")] (Json.str "row_7") (Or.inl rfl) rfl rfl rfl rfl,
   C5_spec.2.2.2.1 {} reqCreateValid create2OracleOk (Or.inl rfl) rfl,
   C5_spec.2.2.2.2.1 {} reqOrderId1 fetch2OracleOk (Or.inl rfl) rfl,
   C5_spec.2.2.2.2.2.1 {} reqOrderId1 fetch2OracleOk (Or.inl rfl) rfl,
   C5_spec.2.2.2.2.2.2 {} reqCreateDbValid createDbOracleOk (Or.inl rfl) rfl⟩

/-- C6: in the datastore backed order creation handler, (a) the outcome of
the `order_items` insert has no influence on the response or on the call
trace (the failure is only logged); (b) a failure of the initial `orders`
insert aborts with a 500 error before any upstream HTTP call; (c) the
outcome of the final `orders` update has no influence on the response, and
in particular (d) a run whose upstream call succeeds but whose update fails
still answers 200 with `success: true`. -/
theorem C6_spec :
    (∀ env req o e,
      pgCreateOrderDbRun env req { o with itemsInsertError := e } =
        pgCreateOrderDbRun env req o) ∧
    (∀ env req o fs a e,
      (req.method == "OPTIONS") = false →
      envTruthy env.supabaseUrl = true →
      envTruthy env.supabaseServiceRoleKey = true →
      envTruthy env.cashfreeAppId = true →
      envTruthy env.cashfreeSecretKey = true →
      req.body = Except.ok (Json.obj fs) →
      (Json.obj fs).getField "orderAmount" = some (Json.num a) →
      0 < a →
      o.orderInsert = Except.error e →
      (pgCreateOrderDbRun env req o).1.status = 500 ∧
      (pgCreateOrderDbRun env req o).1.body = failEnvelope "Failed to create order" ∧
      (pgCreateOrderDbRun env req o).2.filter ExtCall.isFetch = []) ∧
    (∀ env req o e,
      pgCreateOrderDbRun env req { o with updateError := e } =
        pgCreateOrderDbRun env req o) ∧
    (∀ env req o fs a oid m,
      (req.method == "OPTIONS") = false →
      envTruthy env.supabaseUrl = true →
      envTruthy env.supabaseServiceRoleKey = true →
      envTruthy env.cashfreeAppId = true →
      envTruthy env.cashfreeSecretKey = true →
      req.body = Except.ok (Json.obj fs) →
      (Json.obj fs).getField "orderAmount" = some (Json.num a) →
      0 < a →
      (Json.obj fs).getField "orderItems" = none →
      o.orderInsert = Except.ok oid →
      respOk o.upstreamStatus = true →
      o.updateError = some m →
      (pgCreateOrderDbRun env req o).1.status = 200 ∧
      (pgCreateOrderDbRun env req o).1.body.getField "success" =
        some (Json.bool true)) := by
  refine ⟨?_, ?_, ?_, ?_⟩
  · intro env req o e
    cases o
    simp [pgCreateOrderDbRun]
  · intro env req o fs a e hm hsu hsk hca hcs hb hamt hpos hins
    have hd : (decide (0 < a)) = true := decide_eq_true hpos
    simp [pgCreateOrderDbRun, hm, hsu, hsk, hca, hcs, hb, hamt, hd, hins,
      Json.truthy, ExtCall.isFetch]
  · intro env req o e
    cases o
    simp [pgCreateOrderDbRun]
  · intro env req o fs a oid m hm hsu hsk hca hcs hb hamt hpos hitems hins hok hupd
    have hd : (decide (0 < a)) = true := decide_eq_true hpos
    simp only [pgCreateOrderDbRun, hm, hsu, hsk, hca, hcs, hb, hamt, hd, hitems,
      hins, hok, Bool.not_true, if_false, Bool.not_false, if_true, Bool.or_self,
      Bool.false_or]
    simp [objWithOpt, Json.getField_obj, Json.truthy, List.lookup]

/-- C6, witness: the four parts of the statement evaluated on a concrete
valid creation request, with an order items insert failure, an orders insert
failure, and an update failure respectively. -/
theorem C6_witness :
    (pgCreateOrderDbRun envApp reqCreateDbValid
        { createDbOracleOk with itemsInsertError := some "items down" } =
      pgCreateOrderDbRun envApp reqCreateDbValid createDbOracleOk) ∧
    ((pgCreateOrderDbRun envApp reqCreateDbValid
        { createDbOracleOk with orderInsert := Except.error "db down" }).1.status = 500 ∧
      (pgCreateOrderDbRun envApp reqCreateDbValid
        { createDbOracleOk with orderInsert := Except.error "db down" }).1.body =
        failEnvelope "Failed to create order" ∧
      (pgCreateOrderDbRun envApp reqCreateDbValid
        { createDbOracleOk with orderInsert := Except.error "db down" }).2.filter
          ExtCall.isFetch = []) ∧
    (pgCreateOrderDbRun envApp reqCreateDbValid
        { createDbOracleOk with updateError := some "upd failed" } =
      pgCreateOrderDbRun envApp reqCreateDbValid createDbOracleOk) ∧
    ((pgCreateOrderDbRun envApp reqCreateDbValid
        { createDbOracleOk with updateError := some "upd failed" }).1.status = 200 ∧
      (pgCreateOrderDbRun envApp reqCreateDbValid
        { createDbOracleOk with updateError := some "upd failed" }).1.body.getField
          "success" = some (Json.bool true)) :=
  ⟨C6_spec.1 envApp reqCreateDbValid createDbOracleOk (some "items down"),
   C6_spec.2.1 envApp reqCreateDbValid
     { createDbOracleOk with orderInsert := Except.error "db down" }
     [("orderAmount", Json.num 100)] 100 "db down" rfl rfl rfl rfl rfl rfl rfl
     (by decide) rfl,
   C6_spec.2.2.1 envApp reqCreateDbValid createDbOracleOk (some "upd failed"),
   C6_spec.2.2.2 envApp reqCreateDbValid
     { createDbOracleOk with updateError := some "upd failed" }
     [("orderAmount", Json.num 100)] 100 (Json.str "row_7") "upd failed"
     rfl rfl rfl rfl rfl rfl rfl (by decide) rfl rfl rfl rfl⟩

/-- C9, witness: a PAID upstream order yields `isPaid: true` and
`paymentStatus: "PAID"`. -/
theorem C9_witness :
    (pgFetchOrder2Run envCf reqOrderId1 fetch2OracleOk).1.status = 200 ∧
    (pgFetchOrder2Run envCf reqOrderId1 fetch2OracleOk).1.body.getField "isPaid" =
      some (Json.bool ("PAID" == "PAID")) ∧
    (pgFetchOrder2Run envCf reqOrderId1 fetch2OracleOk).1.body.getField "paymentStatus" =
      some (Json.str "PAID") :=
  C9_spec envCf reqOrderId1 fetch2OracleOk [("orderId", Json.str "ord_1")]
    (Json.str "ord_1") paidOrderJson "PAID" rfl rfl rfl rfl rfl rfl rfl rfl rfl

end Cashfree
